import Mathlib

set_option maxRecDepth 100000
set_option maxHeartbeats 4000000

/-!
Verification development for the Policy Navigator retrieval pipeline
(src/pipeline.py, src/memory.py, bot/bot.py).  Python strings are
modelled as `List Char`, Python values as the inductive `PyVal`
(None / str / int / list / dict / attribute-carrying object), and code
that can raise as `Except PyErr`.  Every definition is a direct shallow
embedding of the corresponding Python function; external collaborators
(the index search, the agent, the filesystem) appear as oracle fields of
an environment structure.
-/

/-- Convenience: the character list of a Lean string literal. -/
def chars (s : String) : List Char := s.data

/-- Python exception: the exception type name and the message (str(e)). -/
structure PyErr where
  ty : List Char
  msg : List Char
deriving DecidableEq, Repr

/-- Shallow embedding of the Python values this program manipulates:
None, str, int, list, dict (insertion-ordered key/value pairs, keys
unique), and opaque objects carrying named attributes. -/
inductive PyVal where
  | none
  | str (s : List Char)
  | int (n : Int)
  | list (xs : List PyVal)
  | dict (kvs : List (String × PyVal))
  | obj (attrs : List (String × PyVal))

/-- Lookup of a key in a Python dict (keys are unique; first match). -/
def dictLookup (kvs : List (String × PyVal)) (k : String) : Option PyVal :=
  match kvs.find? (fun p => p.1 == k) with
  | some p => some p.2
  | Option.none => Option.none

/-- Python `d.get(k)`: the value, or None when the key is absent. -/
def pyGet (kvs : List (String × PyVal)) (k : String) : PyVal :=
  (dictLookup kvs k).getD PyVal.none

/-- Python `d.get(k, default)`. -/
def pyGetD (kvs : List (String × PyVal)) (k : String) (d : PyVal) : PyVal :=
  (dictLookup kvs k).getD d

/-- Python `getattr(v, name, None)` restricted to presence: only objects
carry attributes; `some` means `hasattr` is true. -/
def attrGet (v : PyVal) (name : String) : Option PyVal :=
  match v with
  | PyVal.obj attrs => dictLookup attrs name
  | _ => Option.none

/-- Python truthiness of a value. -/
def pyTruthy (v : PyVal) : Bool :=
  match v with
  | PyVal.none => false
  | PyVal.str s => !s.isEmpty
  | PyVal.int n => n != 0
  | PyVal.list xs => !xs.isEmpty
  | PyVal.dict kvs => !kvs.isEmpty
  | PyVal.obj _ => true

/-- Whether `len(v)` is defined (str, list and dict are sized here). -/
def pyHasLen (v : PyVal) : Bool :=
  match v with
  | PyVal.str _ => true
  | PyVal.list _ => true
  | PyVal.dict _ => true
  | _ => false

/-- Opening brace character, kept out of string literals. -/
def lbrace : Char := Char.ofNat 123

/-- Closing brace character. -/
def rbrace : Char := Char.ofNat 125

/-- Single-quote character used by Python repr of strings. -/
def squote : Char := Char.ofNat 39

/-- Join a list of strings with a separator (Python `sep.join`). -/
def joinSep (sep : List Char) : List (List Char) → List Char
  | [] => []
  | [x] => x
  | x :: y :: rest => x ++ sep ++ joinSep sep (y :: rest)

mutual

/-- Python `str(v)`.  Strings print verbatim; containers print their
repr structure (string escaping inside repr is not modelled). -/
def pyStr : PyVal → List Char
  | PyVal.none => chars "None"
  | PyVal.str s => s
  | PyVal.int n => (toString n).data
  | PyVal.list xs => '[' :: pyReprList xs ++ [']']
  | PyVal.dict kvs => lbrace :: pyReprKvs kvs ++ [rbrace]
  | PyVal.obj _ => chars "<object>"

/-- Python `repr(v)`: like str, but strings are quoted. -/
def pyRepr : PyVal → List Char
  | PyVal.str s => squote :: s ++ [squote]
  | PyVal.none => chars "None"
  | PyVal.int n => (toString n).data
  | PyVal.list xs => '[' :: pyReprList xs ++ [']']
  | PyVal.dict kvs => lbrace :: pyReprKvs kvs ++ [rbrace]
  | PyVal.obj _ => chars "<object>"

/-- Comma-joined reprs of list elements. -/
def pyReprList : List PyVal → List Char
  | [] => []
  | [x] => pyRepr x
  | x :: y :: rest => pyRepr x ++ chars ", " ++ pyReprList (y :: rest)

/-- Comma-joined `repr(k): repr(v)` pairs of a dict. -/
def pyReprKvs : List (String × PyVal) → List Char
  | [] => []
  | [(k, v)] => (squote :: k.data ++ [squote]) ++ chars ": " ++ pyRepr v
  | (k, v) :: p :: rest =>
      (squote :: k.data ++ [squote]) ++ chars ": " ++ pyRepr v ++ chars ", " ++
        pyReprKvs (p :: rest)

end

/-- Python `s.strip()` (whitespace from both ends). -/
def pyStrip (s : List Char) : List Char :=
  ((s.dropWhile Char.isWhitespace).reverse.dropWhile Char.isWhitespace).reverse

/-- Python `s.rstrip()` (trailing whitespace only). -/
def pyRstrip (s : List Char) : List Char :=
  (s.reverse.dropWhile Char.isWhitespace).reverse

/-- Python `s.lower()`. -/
def pyLower (s : List Char) : List Char := s.map Char.toLower

/-- Python `xs[-n:]`: the last `n` elements. -/
def takeLastN {α : Type} (n : Nat) (s : List α) : List α :=
  s.drop (s.length - n)

/-- Whether a value is Python None. -/
def pyIsNone : PyVal → Bool
  | PyVal.none => true
  | _ => false

/-- Python chained `a or b or ...`: the first truthy operand, else the
last operand. -/
def pyOrChain : List PyVal → PyVal
  | [] => PyVal.none
  | [v] => v
  | v :: w :: rest => if pyTruthy v then v else pyOrChain (w :: rest)

/-- Python `s.split(sep)[0]` for a non-empty separator: the text before
the first occurrence of `sep` (the whole string when absent). -/
def splitHead (sep : List Char) : List Char → List Char
  | [] => []
  | c :: rest =>
      if List.isPrefixOf sep (c :: rest) then []
      else c :: splitHead sep rest

/-- Python `needle in hay` for strings: substring containment. -/
def containsSub (needle : List Char) : List Char → Bool
  | [] => needle.isEmpty
  | c :: rest => List.isPrefixOf needle (c :: rest) || containsSub needle rest

/-- Split at the first occurrence of a marker, returning the text before
and after it, when present. -/
def splitAtMark (mark : List Char) : List Char → Option (List Char × List Char)
  | [] => Option.none
  | c :: rest =>
      if List.isPrefixOf mark (c :: rest) then
        some ([], (c :: rest).drop mark.length)
      else
        match splitAtMark mark rest with
        | some (pre, post) => some (c :: pre, post)
        | Option.none => Option.none

/-- Order-preserving deduplication (first occurrence wins), the model of
Python `list(dict.fromkeys(xs))`. -/
def dedupAux : List (List Char) → List (List Char) → List (List Char)
  | [], _ => []
  | x :: xs, seen =>
      if seen.contains x then dedupAux xs seen else x :: dedupAux xs (x :: seen)

/-- Deduplicate keeping first occurrences. -/
def dedup (l : List (List Char)) : List (List Char) := dedupAux l []

/-! ## Session memory (src/memory.py) -/

/-- A stored conversation turn: role and content (the timestamp field of
the Python record does not influence any rendered text). -/
structure Turn where
  role : List Char
  content : List Char
deriving DecidableEq, Repr

/-- Constant `_MAX_TURNS_DEFAULT` of memory.py. -/
def MAX_TURNS_DEFAULT : Nat := 10

/-- Constant `_MAX_HISTORY_CHARS` of memory.py. -/
def MAX_HISTORY_CHARS : Nat := 2000

/-- The role label chosen by `build_history_text` for one turn:
`role = "User" if t["role"] == "user" else "Assistant"`. -/
def historyRole (role : List Char) : List Char :=
  if role = chars "user" then chars "User" else chars "Assistant"

/-- The rendered chunk of one turn: `f"{role}: {t['content']}"`. -/
def historyChunk (t : Turn) : List Char :=
  historyRole t.role ++ chars ": " ++ t.content

/-- Embedding of `memory.build_history_text` from the point where the
turn list of the session has been loaded: render the last
`_MAX_TURNS_DEFAULT * 2` turns, join with newlines, and keep the last
`max_chars` characters. -/
def buildHistoryText (turns : List Turn) (maxChars : Nat := MAX_HISTORY_CHARS) :
    List Char :=
  if turns.isEmpty then []
  else
    let window := takeLastN (MAX_TURNS_DEFAULT * 2) turns
    let text := joinSep (chars "\n") (window.map historyChunk)
    if maxChars < text.length then text.drop (text.length - maxChars) else text

/-! ## Search result normalizer (`_results_from_search`, pipeline.py) -/

/-- The synthetic single-entry wrap around a raw value:
`[{"data": v, "metadata": {}}]`. -/
def rfsWrap (v : PyVal) : PyVal :=
  PyVal.list [PyVal.dict [("data", v), ("metadata", PyVal.dict [])]]

/-- The synthetic single-entry wrap around the string form of a value:
`[{"data": str(v), "metadata": {}}]`. -/
def rfsWrapStr (v : PyVal) : PyVal := rfsWrap (PyVal.str (pyStr v))

/-- The key loop of the dict branch (pipeline.py lines 130-132): the
first key in the list whose value is a Python list. -/
def rfsKeyScan (kvs : List (String × PyVal)) : List String → Option PyVal
  | [] => Option.none
  | k :: rest =>
      match dictLookup kvs k with
      | some (PyVal.list xs) => some (PyVal.list xs)
      | _ => rfsKeyScan kvs rest

/-- Error raised by `len()` on an unsized value (the log call at
pipeline.py line 125 evaluates `len(res.details)`). -/
def lenTypeError : PyErr :=
  PyErr.mk (chars "TypeError") (chars "object of this type has no len")

/-- Final `details` attribute fallback of `_results_from_search`
(pipeline.py lines 146-151): a missing or None attribute wraps the
string form of the whole value, a list returns directly, anything else
wraps its own string form. -/
def resultsFromSearchDetails (res : PyVal) : Except PyErr PyVal :=
  match (attrGet res "details").getD PyVal.none with
  | PyVal.none => Except.ok (rfsWrapStr res)
  | PyVal.list xs => Except.ok (PyVal.list xs)
  | d => Except.ok (rfsWrapStr d)

/-- The `data` attribute branch of `_results_from_search` (pipeline.py
lines 135-145) for values that are not None, lists or dicts: a dict data
payload is scanned for the three keys then wrapped as its string form, a
list returns directly, any other truthy payload wraps its string form,
and a falsy or missing payload falls to the details fallback. -/
def resultsFromSearchData (res : PyVal) : Except PyErr PyVal :=
  match (attrGet res "data").getD PyVal.none with
  | PyVal.none => resultsFromSearchDetails res
  | PyVal.dict kvs2 =>
      match rfsKeyScan kvs2 ["details", "output", "results"] with
      | some v => Except.ok v
      | Option.none => Except.ok (rfsWrapStr (PyVal.dict kvs2))
  | PyVal.list xs => Except.ok (PyVal.list xs)
  | d =>
      if pyTruthy d then Except.ok (rfsWrapStr d)
      else resultsFromSearchDetails res

/-- Continuation of `_results_from_search` after the None check and the
truthy-details attribute check (pipeline.py lines 127-151). -/
def resultsFromSearchRest (res : PyVal) : Except PyErr PyVal :=
  match res with
  | PyVal.list xs => Except.ok (PyVal.list xs)
  | PyVal.dict kvs =>
      match rfsKeyScan kvs ["details", "output", "results", "data"] with
      | some v => Except.ok v
      | Option.none =>
          match dictLookup kvs "data" with
          | some dv =>
              if pyTruthy dv then Except.ok (rfsWrap dv)
              else Except.ok (rfsWrapStr res)
          | Option.none => Except.ok (rfsWrapStr res)
  | _ => resultsFromSearchData res

/-- Embedding of `_results_from_search` (pipeline.py lines 118-151).
The log call at line 125 applies `len` to the truthy details attribute,
which raises when that value is unsized; everything else is total. -/
def resultsFromSearch (res : PyVal) : Except PyErr PyVal :=
  match res with
  | PyVal.none => Except.ok (PyVal.list [])
  | _ =>
      match attrGet res "details" with
      | some d =>
          if pyTruthy d then
            if pyHasLen d then Except.ok d else Except.error lenTypeError
          else resultsFromSearchRest res
      | Option.none => resultsFromSearchRest res

/-! ## Context assembler (`_build_context`, pipeline.py lines 154-206) -/

/-- Constant `TOP_K` of pipeline.py. -/
def TOP_K : Nat := 5

/-- Constant `_MAX_CONTEXT` of pipeline.py. -/
def MAX_CONTEXT : Nat := 2500

/-- Constant `_MIN_CTX_CHARS` of pipeline.py. -/
def MIN_CTX_CHARS : Nat := 600

/-- Constant `_EXTRA_INGESTED_MAX_CHARS` of pipeline.py. -/
def EXTRA_INGESTED_MAX_CHARS : Nat := 1400

/-- Error raised by `item.get(...)` on a value without a `get` method. -/
def getAttributeError : PyErr :=
  PyErr.mk (chars "AttributeError") (chars "object has no attribute get")

/-- Error raised by iterating a non-iterable value. -/
def iterTypeError : PyErr :=
  PyErr.mk (chars "TypeError") (chars "object is not iterable")

/-- Python iteration over a value: lists yield elements, strings yield
one-character strings, dicts yield their keys; other values raise. -/
def pyIter (v : PyVal) : Except PyErr (List PyVal) :=
  match v with
  | PyVal.list xs => Except.ok xs
  | PyVal.str s => Except.ok (s.map (fun c => PyVal.str [c]))
  | PyVal.dict kvs => Except.ok (kvs.map (fun p => PyVal.str p.1.data))
  | _ => Except.error iterTypeError

/-- The source filter of `_build_context` (pipeline.py lines 190-196): a
string source is appended when it starts with "http", or mentions a
known regulatory domain, or carries none of the local-path markers. -/
def srcKeep (s : List Char) : Bool :=
  if List.isPrefixOf (chars "http") s then true
  else if containsSub (chars "federalregister.gov") s
      || containsSub (chars "whitehouse.gov") s
      || containsSub (chars "epa.gov") s then true
  else if !(containsSub (chars "data/uploads/") s
      || containsSub (chars "data/web/") s
      || containsSub (chars "C:\\") s
      || containsSub (chars "/Users/") s) then true
  else false

/-- Text extraction for one dict result entry (pipeline.py lines
163-169): ordered truthiness fallback over data/text/content/document,
defaulting to the empty string. -/
def bcTxtOf (kvs : List (String × PyVal)) : PyVal :=
  pyOrChain [pyGet kvs "data", pyGet kvs "text", pyGet kvs "content",
    pyGet kvs "document", PyVal.str []]

/-- Processing of one result entry (pipeline.py lines 160-196): returns
the optional stripped chunk and the appended source strings.  A non-str
non-dict entry raises when `.get` is called on it. -/
def bcProcessItem (item : PyVal) : Except PyErr (Option (List Char) × List (List Char)) :=
  match item with
  | PyVal.str s =>
      let txt := PyVal.str s
      let chunk := if pyTruthy txt && !(pyStrip (pyStr txt)).isEmpty
        then some (pyStrip (pyStr txt)) else Option.none
      Except.ok (chunk, [])
  | PyVal.dict kvs =>
      let txt := bcTxtOf kvs
      let chunk := if pyTruthy txt && !(pyStrip (pyStr txt)).isEmpty
        then some (pyStrip (pyStr txt)) else Option.none
      let meta := pyOrChain [pyGet kvs "metadata", PyVal.dict []]
      (if pyTruthy meta then
        match meta with
        | PyVal.dict m =>
            Except.ok (pyOrChain [pyGet m "url", pyGet m "path", pyGet m "source",
              pyGet m "filename", pyGet m "dataset"])
        | _ => Except.error getAttributeError
       else Except.ok PyVal.none).bind (fun srcMeta =>
        let src := if !pyTruthy srcMeta then
            pyOrChain [pyGet kvs "document", pyGet kvs "source", pyGet kvs "url"]
          else srcMeta
        let srcs := match src with
          | PyVal.str s2 => if pyTruthy (PyVal.str s2) && srcKeep s2 then [s2] else []
          | _ => []
        Except.ok (chunk, srcs))
  | _ => Except.error getAttributeError

/-- Left-to-right processing of all result entries, accumulating chunks
and sources. -/
def bcItems : List PyVal → Except PyErr (List (List Char) × List (List Char))
  | [] => Except.ok ([], [])
  | item :: rest =>
      (bcProcessItem item).bind (fun p =>
        (bcItems rest).bind (fun q =>
          Except.ok ((match p.1 with
            | some c => c :: q.1
            | Option.none => q.1), p.2 ++ q.2)))

/-- Separator used between result chunks. -/
def ctxSep : List Char := chars "\n\n---\n\n"

/-- The joined, stripped context before the cap (pipeline.py line 198). -/
def contextOfChunks (chunks : List (List Char)) : List Char :=
  pyStrip (joinSep ctxSep chunks)

/-- The hard cap of the context (pipeline.py lines 199-200). -/
def capContext (c : List Char) : List Char :=
  if MAX_CONTEXT < c.length then c.take MAX_CONTEXT else c

/-- Embedding of `_build_context` (pipeline.py lines 154-206). -/
def buildContext (results : PyVal) : Except PyErr (List Char × List (List Char)) :=
  (pyIter results).bind (fun items =>
    (bcItems items).bind (fun p =>
      Except.ok (capContext (contextOfChunks p.1), p.2)))

/-- The cap applied to the recently-ingested excerpt before it is
attached (pipeline.py lines 591-592). -/
def capIngestedText (text : List Char) : List Char :=
  if EXTRA_INGESTED_MAX_CHARS < text.length
  then text.take EXTRA_INGESTED_MAX_CHARS else text

/-! ## Pipeline response normalizer (`_convert_json_to_natural`,
`_format_output`, `_split_sources`) -/

/-- Python `str.title()`: uppercase a letter that follows a non-letter,
lowercase the other letters. -/
def pyTitleAux : Bool → List Char → List Char
  | _, [] => []
  | prevAlpha, c :: rest =>
      if c.isAlpha then
        (if prevAlpha then c.toLower else c.toUpper) :: pyTitleAux true rest
      else c :: pyTitleAux false rest

/-- Python `s.title()`. -/
def pyTitle (s : List Char) : List Char := pyTitleAux false s

/-- Python `key.replace("_", " ").title()` used on dict keys. -/
def titleKey (k : String) : List Char :=
  pyTitle (k.data.map (fun c => if c = '_' then ' ' else c))

/-- Error raised by `", ".join(xs)` when an element is not a string. -/
def joinTypeError : PyErr :=
  PyErr.mk (chars "TypeError") (chars "sequence item: expected str instance")

/-- Error raised by `str += ...` or `nonstr += str` type mismatches. -/
def concatTypeError : PyErr :=
  PyErr.mk (chars "TypeError") (chars "unsupported operand type for +")

/-- Modelled type-flow error: `_convert_json_to_natural` returns the raw
non-string `definition` value, which breaks the string operations of its
caller; the failure is modelled at this point. -/
def typeFlowError : PyErr :=
  PyErr.mk (chars "TypeError") (chars "non-string value escaped normalization")

/-- Python `", ".join(xs)`: raises unless every element is a string. -/
def cjnJoinStrs (sep : List Char) (xs : List PyVal) : Except PyErr (List Char) :=
  if xs.all (fun x => match x with | PyVal.str _ => true | _ => false) then
    Except.ok (joinSep sep (xs.map pyStr))
  else Except.error joinTypeError

/-- One requirement bullet (pipeline.py lines 226-229): dict entries
render with defaulted name/description, others are skipped. -/
def cjnReqBullet (defaultName : String) (req : PyVal) : List Char :=
  match req with
  | PyVal.dict r =>
      chars "• **" ++ pyStr (pyGetD r "name" (PyVal.str (chars defaultName))) ++
        chars "**: " ++ pyStr (pyGetD r "description" (PyVal.str [])) ++ chars "\n"
  | _ => []

/-- The flat scalar/short-list sentence fragments of
`_convert_json_to_natural` (pipeline.py lines 253-259). -/
def cjnParts (kvs : List (String × PyVal)) : List (List Char) :=
  kvs.foldr (fun p acc =>
    match p.2 with
    | PyVal.str s =>
        if s.length < 200 then (titleKey p.1 ++ chars ": " ++ s) :: acc else acc
    | PyVal.list xs =>
        if xs.length ≤ 5 then
          (titleKey p.1 ++ chars ": " ++ joinSep (chars ", ") (xs.map pyStr)) :: acc
        else acc
    | _ => acc) []

/-- Embedding of `_convert_json_to_natural` (pipeline.py lines 209-260).
A non-dict value stringifies; the definition / compliance / summary /
single-key branches are tried in order, then the flat-parts fallback. -/
def convertJsonToNatural (data : PyVal) : Except PyErr (List Char) :=
  match data with
  | PyVal.dict kvs =>
      match dictLookup kvs "definition" with
      | some d =>
          (match d with
           | PyVal.str s =>
               let r1 := s ++ (match dictLookup kvs "purpose" with
                 | some p => ' ' :: pyStr p
                 | Option.none => [])
               (match dictLookup kvs "key_principles" with
                | some (PyVal.list ps) =>
                    (cjnJoinStrs (chars ", ") ps).bind (fun j =>
                      Except.ok (r1 ++ chars "\n\nKey principles include: " ++ j ++
                        chars "."))
                | _ => Except.ok r1)
           | _ =>
               if (dictLookup kvs "purpose").isSome then
                 Except.error concatTypeError
               else
                 match dictLookup kvs "key_principles" with
                 | some (PyVal.list _) => Except.error concatTypeError
                 | _ => Except.error typeFlowError)
      | Option.none =>
      match dictLookup kvs "compliance_requirements" with
      | some (PyVal.list reqs) =>
          Except.ok (pyStrip ((reqs.take 5).foldl
            (fun acc req => acc ++ cjnReqBullet "Requirement" req)
            (chars "Main compliance requirements include:\n\n")))
      | _ =>
      match dictLookup kvs "summary" with
      | some (PyVal.dict s) =>
          let r1 := match dictLookup s "global_trends" with
            | some g => pyStr g ++ chars "\n\n"
            | Option.none => []
          let r2 := match dictLookup s "key_regulations" with
            | some (PyVal.list regs) =>
                chars "Key regulations include:\n" ++
                  (regs.take 3).foldl
                    (fun acc reg => acc ++ cjnReqBullet "Regulation" reg) []
            | _ => []
          Except.ok (pyStrip (r1 ++ r2))
      | _ =>
          let tailParts :=
            let parts := cjnParts kvs
            if !parts.isEmpty then
              Except.ok (joinSep (chars ". ") (parts.take 3) ++ chars ".")
            else Except.ok (pyStr data)
          if kvs.length = 1 then
            match kvs with
            | (k, PyVal.str s) :: _ =>
                Except.ok (titleKey k ++ chars ": " ++ s)
            | (k, PyVal.list xs) :: _ =>
                Except.ok (titleKey k ++ chars ": " ++
                  joinSep (chars ", ") ((xs.take 3).map pyStr))
            | _ => tailParts
          else tailParts
  | _ => Except.ok (pyStr data)

/-- The direct string-attribute scan of `_format_output` (pipeline.py
lines 289-293): the first attribute among text/output/message/content
that is a string with non-empty strip. -/
def firstStrAttr (resp : PyVal) : List String → Option (List Char)
  | [] => Option.none
  | a :: rest =>
      match attrGet resp a with
      | some (PyVal.str s) =>
          if !(pyStrip s).isEmpty then some (pyStrip s) else firstStrAttr resp rest
      | _ => firstStrAttr resp rest

/-- Handling of one data-dict value in `_format_output` (pipeline.py
lines 304-320): strings may parse as JSON dicts and convert (conversion
failures swallowed by the bare except), dicts convert (failures
propagate), other truthy values stringify, falsy values continue the
loop (`none`). -/
def fmtKeyVal (jsonParse : List Char → Option PyVal) (v : PyVal) :
    Except PyErr (Option (List Char)) :=
  match v with
  | PyVal.str s =>
      if !(pyStrip s).isEmpty then
        Except.ok (some (match jsonParse s with
          | some (PyVal.dict d) =>
              (match convertJsonToNatural (PyVal.dict d) with
               | Except.ok t => t
               | Except.error _ => pyStrip s)
          | _ => pyStrip s))
      else if !s.isEmpty then Except.ok (some (pyStrip s))
      else Except.ok Option.none
  | PyVal.dict d =>
      (convertJsonToNatural (PyVal.dict d)).bind (fun t => Except.ok (some t))
  | _ =>
      if pyTruthy v then Except.ok (some (pyStrip (pyStr v)))
      else Except.ok Option.none

/-- The key loop of `_format_output` over the data dict (pipeline.py
lines 304-320). -/
def fmtDataKeys (jsonParse : List Char → Option PyVal)
    (kvs : List (String × PyVal)) : List String → Except PyErr (Option (List Char))
  | [] => Except.ok Option.none
  | k :: rest =>
      match dictLookup kvs k with
      | Option.none => fmtDataKeys jsonParse kvs rest
      | some PyVal.none => fmtDataKeys jsonParse kvs rest
      | some v =>
          (fmtKeyVal jsonParse v).bind (fun r =>
            match r with
            | some t => Except.ok (some t)
            | Option.none => fmtDataKeys jsonParse kvs rest)

/-- The reversed intermediate-steps scan of `_format_output`
(pipeline.py lines 326-332), applied to the already reversed list. -/
def fmtStepsAux : List PyVal → Option (List Char)
  | [] => Option.none
  | PyVal.dict kvs :: rest =>
      (match dictLookup kvs "output" with
       | some (PyVal.str s) =>
           if !(pyStrip s).isEmpty then some (pyStrip s) else fmtStepsAux rest
       | _ => fmtStepsAux rest)
  | _ :: rest => fmtStepsAux rest

/-- The space-joined key-value summary of `_format_output` (pipeline.py
lines 333-337). -/
def fmtSummary (kvs : List (String × PyVal)) : List Char :=
  joinSep (chars " ")
    ((kvs.filter (fun p => pyTruthy p.2 && !(pyStrip (pyStr p.2)).isEmpty)).map
      (fun p => p.1.data ++ chars ": " ++ pyStr p.2))

/-- The summary-then-stringify tail of `_format_output`. -/
def fmtTail (kvs : List (String × PyVal)) (resp : PyVal) : Except PyErr (List Char) :=
  let summary := fmtSummary kvs
  if !summary.isEmpty then Except.ok summary else Except.ok (pyStrip (pyStr resp))

/-- Embedding of `_format_output` (pipeline.py lines 285-340),
parameterized by the pure outcome of `json.loads` (an Option; a parse
failure is `none`).  The optional `to_dict` conversion of the data
payload is an external method of the agent SDK and is not modelled: the
data attribute is inspected as the value it already is. -/
def formatOutput (jsonParse : List Char → Option PyVal) (resp : PyVal) :
    Except PyErr (List Char) :=
  match firstStrAttr resp ["text", "output", "message", "content"] with
  | some s => Except.ok s
  | Option.none =>
      let data := (attrGet resp "data").getD PyVal.none
      match data with
      | PyVal.dict kvs =>
          (fmtDataKeys jsonParse kvs ["output", "text", "message", "content"]).bind
            (fun r =>
              match r with
              | some t => Except.ok t
              | Option.none =>
                  match dictLookup kvs "intermediate_steps" with
                  | some st =>
                      if pyTruthy st then
                        match st with
                        | PyVal.list steps =>
                            (match fmtStepsAux steps.reverse with
                             | some t => Except.ok t
                             | Option.none => fmtTail kvs resp)
                        | _ => fmtTail kvs resp
                      else fmtTail kvs resp
                  | Option.none => fmtTail kvs resp)
      | _ => Except.ok (pyStrip (pyStr resp))

/-- Embedding of `_split_sources` (pipeline.py lines 343-348): split on
the first occurrence of a Sources marker line. -/
def splitSourcesModel (text : List Char) : List Char × Option (List Char) :=
  match splitAtMark (chars "\n**Sources**\n") text with
  | some (pre, post) => (pyStrip pre, some (pyStrip post))
  | Option.none => (pyStrip text, Option.none)

/-! ## Agent invoker (`_agent_run_with_retry`, pipeline.py lines 388-474) -/

/-- Observable events of the invoker: a call to `agent.run` with its
argument, and a backoff sleep with its multiplier (the slept time is
`base_delay * mult`). -/
inductive AgentEvent where
  | callEv (arg : PyVal)
  | sleepEv (mult : Nat)

/-- Whether an event is an agent call. -/
def isCallEv : AgentEvent → Bool
  | AgentEvent.callEv _ => true
  | AgentEvent.sleepEv _ => false

/-- Whether a call event carries a mapping argument containing a key. -/
def eventHasKey (e : AgentEvent) (k : String) : Bool :=
  match e with
  | AgentEvent.callEv (PyVal.dict kvs) => (dictLookup kvs k).isSome
  | _ => false

/-- The session item of a mapping argument: added only when the session
identifier is truthy (`if session_id:`). -/
def sidKv (sid : Option (List Char)) : List (String × PyVal) :=
  match sid with
  | some s => if s.isEmpty then [] else [("session_id", PyVal.str s)]
  | Option.none => []

/-- The primary argument mapping (pipeline.py lines 401-405): query,
plus context when truthy, plus session when truthy. -/
def mainArgs (q ctx : List Char) (sid : Option (List Char)) : PyVal :=
  PyVal.dict ([("query", PyVal.str q)] ++
    (if ctx.isEmpty then [] else [("context", PyVal.str ctx)]) ++ sidKv sid)

/-- The legacy fallback mapping (pipeline.py lines 437-440): the query
truncated before the first "\n---\n", the context unconditionally, and
the session when truthy. -/
def fallbackArgs (q ctx : List Char) (sid : Option (List Char)) : PyVal :=
  PyVal.dict ([("query", PyVal.str (splitHead (chars "\n---\n") q)),
    ("context", PyVal.str ctx)] ++ sidKv sid)

/-- The validity test applied to fallback responses (pipeline.py lines
421-425 etc.): `hasattr(r, "data") and hasattr(r.data, "output") and
r.data.output`. -/
def respValid (r : PyVal) : Bool :=
  match attrGet r "data" with
  | some d =>
      match attrGet d "output" with
      | some o => pyTruthy o
      | Option.none => false
  | Option.none => false

/-- One iteration of the try block of `_agent_run_with_retry`
(pipeline.py lines 400-451): the primary call, then on an empty-output
data-carrying response the bare-string call, the query-only mapping and
the legacy mapping; a response without a data attribute returns as-is,
and the last legacy response returns whether valid or not. -/
def attemptOnce (run : PyVal → Except PyErr PyVal) (q ctx : List Char)
    (sid : Option (List Char)) : Except PyErr PyVal × List AgentEvent :=
  let a0 := mainArgs q ctx sid
  match run a0 with
  | Except.error e => (Except.error e, [AgentEvent.callEv a0])
  | Except.ok result =>
      match attrGet result "data" with
      | Option.none => (Except.ok result, [AgentEvent.callEv a0])
      | some d =>
          if (match attrGet d "output" with
              | some o => pyTruthy o
              | Option.none => false) then
            (Except.ok result, [AgentEvent.callEv a0])
          else
            let t1 := [AgentEvent.callEv a0, AgentEvent.callEv (PyVal.str q)]
            match run (PyVal.str q) with
            | Except.error e => (Except.error e, t1)
            | Except.ok r1 =>
                if respValid r1 then (Except.ok r1, t1)
                else
                  let a2 := PyVal.dict [("query", PyVal.str q)]
                  let t2 := t1 ++ [AgentEvent.callEv a2]
                  match run a2 with
                  | Except.error e => (Except.error e, t2)
                  | Except.ok r2 =>
                      if respValid r2 then (Except.ok r2, t2)
                      else
                        let a3 := fallbackArgs q ctx sid
                        let t3 := t2 ++ [AgentEvent.callEv a3]
                        match run a3 with
                        | Except.error e => (Except.error e, t3)
                        | Except.ok r3 => (Except.ok r3, t3)

/-- Error raised when the loop exits without any recorded error
(pipeline.py line 474). -/
def retriesExhaustedError : PyErr :=
  PyErr.mk (chars "RuntimeError") (chars "agent.run failed with all attempts")

/-- The retry loop of `_agent_run_with_retry` (pipeline.py lines
399-474): every exception from an attempt leads to a backoff sleep and
the next attempt; an exception whose message mentions "query" or
"TypeError" first triggers one simplified bare-string call (its result
used only when valid, its own failure swallowed); after the last
attempt the last error is re-raised. -/
def retryLoop (run : PyVal → Except PyErr PyVal) (q ctx : List Char)
    (sid : Option (List Char)) (attempt : Nat) :
    Nat → Option PyErr → Except PyErr PyVal × List AgentEvent
  | 0, lastErr =>
      (match lastErr with
       | some e => (Except.error e, [])
       | Option.none => (Except.error retriesExhaustedError, []))
  | Nat.succ rem, _ =>
      match attemptOnce run q ctx sid with
      | (Except.ok r, tr) => (Except.ok r, tr)
      | (Except.error e, tr) =>
          if containsSub (chars "query") e.msg
              || containsSub (chars "TypeError") e.msg then
            let simple := q.takeWhile (fun c => c ≠ '\n')
            let trS := tr ++ [AgentEvent.callEv (PyVal.str simple)]
            match run (PyVal.str simple) with
            | Except.ok r =>
                if respValid r then (Except.ok r, trS)
                else
                  let next := retryLoop run q ctx sid (attempt + 1) rem (some e)
                  (next.1, trS ++ [AgentEvent.sleepEv (attempt + 1)] ++ next.2)
            | Except.error _ =>
                let next := retryLoop run q ctx sid (attempt + 1) rem (some e)
                (next.1, trS ++ [AgentEvent.sleepEv (attempt + 1)] ++ next.2)
          else
            let next := retryLoop run q ctx sid (attempt + 1) rem (some e)
            (next.1, tr ++ [AgentEvent.sleepEv (attempt + 1)] ++ next.2)

/-- Embedding of `_agent_run_with_retry` (pipeline.py lines 388-474)
over a deterministic agent oracle, also returning the trace of calls
and sleeps. -/
def agentRunWithRetry (run : PyVal → Except PyErr PyVal) (q ctx : List Char)
    (sid : Option (List Char)) (retries : Nat := 3) :
    Except PyErr PyVal × List AgentEvent :=
  retryLoop run q ctx sid 0 retries Option.none

/-! ## Backfill and orchestrator (`_backfill_if_needed`, `answer`) -/

/-- External collaborators and ambient configuration of one `answer`
invocation, modelled as deterministic oracles: initialization outcomes,
the index search, the agent (`run`; `runKw` is the keyword-style call of
the general-answer fallback), the web-backfill chain, environment flags,
the already-computed recently-ingested attachment (that helper never
raises: all of its internals are wrapped in try blocks), the pure
outcome of `json.loads`, and the stored session turns. -/
structure PipelineEnv where
  bootstrapResult : Except PyErr Unit
  agentInitResult : Except PyErr Unit
  search : List Char → Nat → Except PyErr PyVal
  run : PyVal → Except PyErr PyVal
  runKw : PyVal → Except PyErr PyVal
  useWebBackfill : Bool
  seedUrl : Option (List Char)
  scrapeOutcome : Except PyErr Unit
  searchAfterScrape : List Char → Nat → Except PyErr PyVal
  allowGeneralAnswer : Bool
  extraIngested : List Char × List (List Char)
  jsonParse : List Char → Option PyVal
  sessionTurns : List Turn

/-- One search-and-build chain: `index.search`, normalize, build
context.  Any raise inside is caught by the enclosing try of the
caller. -/
def searchBuild (search : List Char → Nat → Except PyErr PyVal)
    (q : List Char) (k : Nat) : Except PyErr (List Char × List (List Char)) :=
  (search q k).bind (fun rv =>
    (resultsFromSearch rv).bind (fun rs => buildContext rs))

/-- The re-scrape chain of the web backfill (pipeline.py lines 374-382):
scrape, re-index, search again, build. -/
def webBackfillBuild (env : PipelineEnv) (q : List Char) :
    Except PyErr (List Char × List (List Char)) :=
  env.scrapeOutcome.bind (fun _ =>
    searchBuild env.searchAfterScrape q TOP_K)

/-- The history-augmented re-query stage of `_backfill_if_needed`
(pipeline.py lines 357-369): the candidate replaces the context only
when strictly longer; a raise anywhere in the chain is swallowed. -/
def backfillReQuery (env : PipelineEnv) (altQ retrievedCtx : List Char) :
    List Char × List (List Char) :=
  match searchBuild env.search altQ TOP_K with
  | Except.ok (ctx2, src2) =>
      if retrievedCtx.length < ctx2.length then (ctx2, src2)
      else (retrievedCtx, ([] : List (List Char)))
  | Except.error _ => (retrievedCtx, [])

/-- The optional web-backfill stage of `_backfill_if_needed`
(pipeline.py lines 370-384): run only while still below the minimum with
the flag enabled and a truthy seed URL; the candidate replaces the
context only when strictly longer; a raise is swallowed. -/
def backfillWeb (env : PipelineEnv) (query : List Char)
    (stage1 : List Char × List (List Char)) : List Char × List (List Char) :=
  if stage1.1.length < MIN_CTX_CHARS && env.useWebBackfill then
    match env.seedUrl with
    | some seed =>
        if seed.isEmpty then stage1
        else
          match webBackfillBuild env query with
          | Except.ok (ctx3, src3) =>
              if stage1.1.length < ctx3.length then (ctx3, stage1.2 ++ src3)
              else stage1
          | Except.error _ => stage1
    | Option.none => stage1
  else stage1

/-- Embedding of `_backfill_if_needed` (pipeline.py lines 351-385): when
the context is below the minimum, the history-augmented re-query stage
and then the optional web stage each replace it only when strictly
longer. -/
def backfillIfNeeded (env : PipelineEnv) (query historyText retrievedCtx : List Char) :
    List Char × List (List Char) :=
  if MIN_CTX_CHARS ≤ retrievedCtx.length then (retrievedCtx, [])
  else
    let boost := takeLastN 600 historyText
    let altQ := if boost.isEmpty then query
      else query ++ chars "\n\nPrevious turns (for hints):\n" ++ boost
    backfillWeb env query (backfillReQuery env altQ retrievedCtx)

/-- The trigger phrases of `answer` (pipeline.py lines 602-612). -/
def triggerPhrases : List (List Char) :=
  [chars "the document i just ingested", chars "the document i ingested",
   chars "this document", chars "from the document i just added",
   chars "from the url i just added", chars "from the file i just uploaded",
   chars "the document we just added", chars "i just ingested",
   chars "document i just"]

/-- Whether the lowered query mentions the recently ingested document
(pipeline.py line 613). -/
def wantsIngestedDoc (q : List Char) : Bool :=
  triggerPhrases.any (fun p => containsSub p (pyLower q))

/-- Primary retrieval of `answer` (pipeline.py lines 615-651): the
recent-ingestion excerpt is either prioritized (trigger detected) with a
500-character slice of index context appended, or appended in front of
the full index context; index failures leave whatever was already
assembled. -/
def answerRetrieval (env : PipelineEnv) (query : List Char) : List Char × List (List Char) :=
  let extraText := env.extraIngested.1
  let extraSources := env.extraIngested.2
  if wantsIngestedDoc query && !extraText.isEmpty then
    match searchBuild env.search query 3 with
    | Except.ok (ictx, isrc) =>
        if !ictx.isEmpty then
          (extraText ++ ctxSep ++ ictx.take 500, extraSources ++ isrc)
        else (extraText, extraSources)
    | Except.error _ => (extraText, extraSources)
  else
    match searchBuild env.search query TOP_K with
    | Except.ok (rctx, rsrc) =>
        if !extraText.isEmpty then
          (extraText ++ ctxSep ++ rctx, extraSources ++ rsrc)
        else (rctx, rsrc)
    | Except.error _ =>
        if !extraText.isEmpty then (extraText, extraSources) else ([], [])

/-- The history text used by `answer` (pipeline.py line 653):
`memory.build_history_text(session_id) if session_id else ""`. -/
def answerHistoryText (env : PipelineEnv) (sid : Option (List Char)) : List Char :=
  match sid with
  | some s => if s.isEmpty then [] else buildHistoryText env.sessionTurns
  | Option.none => []

/-- Retrieval plus backfill plus the source override (pipeline.py lines
615-659): backfill sources replace the collected sources when
non-empty. -/
def answerContext (env : PipelineEnv) (query : List Char) (sid : Option (List Char)) :
    List Char × List (List Char) :=
  let p := answerRetrieval env query
  let b := backfillIfNeeded env query (answerHistoryText env sid) p.1
  (b.1, if b.2.isEmpty then p.2 else b.2)

/-- The fixed instruction header of `answer` (pipeline.py lines
661-667). -/
def answerHeader : List Char :=
  chars "You are answering a user question using the retrieved context below. The context includes documents the user recently added/ingested. Answer directly and specifically using the information provided. If you can see the information in the context, provide it. Do not ask for the document again if context is provided."

/-- The capped inline context block of `answer` (pipeline.py lines
669-677): header, optional history, optional retrieved context, joined
and truncated to the context cap. -/
def answerInlineCtx (env : PipelineEnv) (query : List Char) (sid : Option (List Char)) :
    List Char :=
  let historyText := answerHistoryText env sid
  let ctx := (answerContext env query sid).1
  let parts := [answerHeader] ++
    (if historyText.isEmpty then [] else
      [chars "Conversation history:\n" ++ historyText]) ++
    (if ctx.isEmpty then [] else
      [chars "Retrieved context (including recently ingested documents):\n" ++ ctx])
  (joinSep (chars "\n\n====\n\n") parts).take MAX_CONTEXT

/-- The full query handed to the agent (pipeline.py line 678). -/
def answerQueryForAgent (env : PipelineEnv) (query : List Char)
    (sid : Option (List Char)) : List Char :=
  query ++ chars "\n\n----\n\n" ++ answerInlineCtx env query sid

/-- The diagnostic message returned on a hard agent failure
(pipeline.py lines 690-702). -/
def answerDiagnostic (env : PipelineEnv) (query : List Char)
    (sid : Option (List Char)) (e : PyErr) : List Char :=
  let inlineCtx := answerInlineCtx env query sid
  let preview := if 800 < inlineCtx.length then inlineCtx.take 800 ++ chars "…"
    else inlineCtx
  let joined := joinSep (chars "\n")
    (((dedup (answerContext env query sid).2).take 5).map
      (fun s => chars "- " ++ s))
  let hints := if joined.isEmpty then chars "(none)" else joined
  chars "[DEBUG] Agent call failed.\n\nQuery: " ++ query ++
    chars "\nTop sources:\n" ++ hints ++ chars "\n\nContext preview:\n" ++
    preview ++ chars "\n\nError: " ++ e.msg

/-- The source filter applied just before the Sources section is
appended (pipeline.py lines 708-710). -/
def cleanSrcPred (s : List Char) : Bool :=
  List.isPrefixOf (chars "http") s || containsSub (chars "federalregister.gov") s
    || containsSub (chars "whitehouse.gov") s

/-- The deduplicated, capped list rendered into the final Sources
section (pipeline.py lines 711-713). -/
def finalSourceList (sources : List (List Char)) : List (List Char) :=
  (dedup (sources.filter cleanSrcPred)).take 5

/-- Appending of the Sources section (pipeline.py lines 705-713): only
when the output has no Sources marker yet and at least one source
survives the cleaning filter. -/
def appendSourcesSection (out : List Char) (sources : List (List Char)) : List Char :=
  let hasSources := containsSub (chars "**Sources**") out
    || containsSub (chars "Sources:") out
  if !hasSources && !sources.isEmpty then
    if !(sources.filter cleanSrcPred).isEmpty then
      pyRstrip out ++ chars "\n\n**Sources**\n" ++
        joinSep (chars "\n") ((finalSourceList sources).map (fun s => chars "- " ++ s))
    else out
  else out

/-- The general-answer fallback (pipeline.py lines 715-731): tried when
the output is empty and the flag allows it; a keyword-style call first,
a mapping call on a TypeError, all failures (including formatting
failures, which are inside the try) swallowed. -/
def answerGeneralFallback (env : PipelineEnv) (qfa : List Char)
    (sid : Option (List Char)) (out : List Char) : List Char :=
  if (out.isEmpty || (pyStrip out).isEmpty) && env.allowGeneralAnswer then
    let kwargs2 := PyVal.dict ([("query", PyVal.str qfa)] ++ sidKv sid)
    let resp2 := match env.runKw kwargs2 with
      | Except.ok r => some r
      | Except.error e =>
          if e.ty = chars "TypeError" then
            match env.run kwargs2 with
            | Except.ok r => some r
            | Except.error _ => Option.none
          else Option.none
    match resp2 with
    | some r =>
        (match formatOutput env.jsonParse r with
         | Except.ok out2 =>
             if !out2.isEmpty && !(pyStrip out2).isEmpty then out2 else out
         | Except.error _ => out)
    | Option.none => out
  else out

/-- The apologetic default produced when everything came back empty
(pipeline.py lines 733-737). -/
def answerSorryMessage (query : List Char) : List Char :=
  chars "Sorry, I couldn" ++ [squote] ++
    chars "t extract a clear answer for: " ++ query ++
    chars "\n\nTip: try asking with a snippet from the document or a section heading."

/-- The post-agent tail of `answer` (pipeline.py lines 704-745): format
the response (the only uncaught raise of this tail), append sources, try
the general fallback, then the default message.  The final memory writes
do not affect the returned text and never raise (their file operations
are wrapped inside memory.py). -/
def answerAfterAgent (env : PipelineEnv) (query qfa : List Char)
    (sid : Option (List Char)) (sources : List (List Char)) (resp : PyVal) :
    Except PyErr (List Char) :=
  (formatOutput env.jsonParse resp).bind (fun out =>
    let out1 := appendSourcesSection out sources
    let out2 := answerGeneralFallback env qfa sid out1
    let out3 := if out2.isEmpty || (pyStrip out2).isEmpty
      then answerSorryMessage query else out2
    Except.ok out3)

/-- Embedding of `answer` (pipeline.py lines 597-745): initialization
(uncaught), retrieval and backfill (caught internally), the agent call
(a hard failure returns the diagnostic string), and the formatting
tail. -/
def answerModel (env : PipelineEnv) (query : List Char) (sid : Option (List Char)) :
    Except PyErr (List Char) :=
  env.bootstrapResult.bind (fun _ =>
    env.agentInitResult.bind (fun _ =>
      let qfa := answerQueryForAgent env query sid
      let cs := answerContext env query sid
      match (agentRunWithRetry env.run qfa cs.1 sid 3).1 with
      | Except.error e => Except.ok (answerDiagnostic env query sid e)
      | Except.ok resp => answerAfterAgent env query qfa sid cs.2 resp))

/-! ## Bot response normalizer (bot/bot.py) -/

/-- Python `s.capitalize()`: first character uppercased, rest
lowercased. -/
def pyCapitalize : List Char → List Char
  | [] => []
  | c :: rest => c.toUpper :: rest.map Char.toLower

/-- Embedding of `_human` (bot.py lines 40-41):
`s.replace("_", " ").strip().capitalize()`. -/
def humanize (s : List Char) : List Char :=
  pyCapitalize (pyStrip (s.map (fun c => if c = '_' then ' ' else c)))

/-- Embedding of `_natural_list` (bot.py lines 48-54). -/
def naturalList (items : List (List Char)) : List Char :=
  let its := (items.map pyStrip).filter (fun i => !i.isEmpty)
  match its with
  | [] => []
  | [x] => x
  | _ => joinSep (chars ", ") its.dropLast ++ chars " and " ++ (its.getLast?).getD []

/-- Embedding of `_join` (bot.py lines 44-45). -/
def joinBits (parts : List (List Char)) : List Char :=
  joinSep (chars " ")
    ((parts.filter (fun p => !p.isEmpty && !(pyStrip p).isEmpty)).map pyStrip)

/-- Whether a value is a Python str or int (the scalar test
`isinstance(x, (str, int, float))`; floats are not modelled). -/
def isScalar : PyVal → Bool
  | PyVal.str _ => true
  | PyVal.int _ => true
  | _ => false

/-- One case bullet of `_cases_to_text` (bot.py lines 57-69). -/
def caseLineOf (it : PyVal) : List (List Char) :=
  match it with
  | PyVal.dict r =>
      let name := pyOrChain [pyGet r "case_name", pyGet r "name", pyGet r "title"]
      let year := pyGet r "year"
      let outcome := pyOrChain [pyGet r "outcome", pyGet r "holding", pyGet r "summary"]
      if pyTruthy name && pyTruthy outcome then
        [if pyTruthy year then
          chars "• " ++ pyStr name ++ chars " (" ++ pyStr year ++ chars ") — " ++
            pyStr outcome
         else chars "• " ++ pyStr name ++ chars " — " ++ pyStr outcome]
      else []
  | _ => []

/-- Embedding of `_cases_to_text` (bot.py lines 57-72): only dict items
of a list value with truthy name and outcome contribute bullets; None is
returned when no bullet survives. -/
def casesToText (value : PyVal) : Option (List Char) :=
  let cases := match value with
    | PyVal.list xs => xs.foldr (fun it acc => caseLineOf it ++ acc) []
    | _ => []
  if cases.isEmpty then Option.none
  else some (chars "Key cases and outcomes:\n" ++ joinSep (chars "\n") cases)

/-- Embedding of `_executive_order_to_text` (bot.py lines 75-101). -/
def executiveOrderToText (key : String) (p : List (String × PyVal)) : List Char :=
  let status := pyOrChain [pyGet p "status", pyGet p "state"]
  let signed := pyOrChain [pyGet p "date_signed", pyGet p "signed"]
  let desc := pyGet p "description"
  let last := pyOrChain [pyGet p "last_confirmed", pyGet p "last_checked"]
  let amend := pyOrChain [pyGet p "amendments_or_repeals", pyGet p "amendments",
    pyGet p "repeals"]
  let bits :=
    (if pyTruthy status then [chars "It is **" ++ pyStr status ++ chars "**"] else [])
    ++ (if pyTruthy signed then [chars "since " ++ pyStr signed] else [])
    ++ (if pyTruthy last then [chars "(last confirmed " ++ pyStr last ++ chars ")"]
        else [])
  let header := humanize key.data ++ chars ": " ++ joinBits bits ++ chars "."
  let tail1 := match desc with
    | PyVal.str s => if !s.isEmpty && !(pyStrip s).isEmpty then ' ' :: pyStrip s else []
    | _ => []
  let tail2 := match amend with
    | PyVal.str a =>
        if !(pyStrip a).isEmpty && pyLower a ≠ chars "none" && pyLower a ≠ chars "no"
        then chars " Amendments or repeals noted: " ++ a ++ chars "."
        else []
    | _ => []
  pyStrip (header ++ tail1 ++ tail2)

/-- The scalar/short-list sentence fragments shared by the nested and
flat loops of `_dict_to_natural` (bot.py lines 116-123 and 137-145). -/
def dtnScalarBits (d : List (String × PyVal)) : List (List Char) :=
  d.foldr (fun p acc =>
    match p.2 with
    | PyVal.str _ =>
        (humanize p.1.data ++ chars ": " ++ pyStr p.2 ++ chars ".") :: acc
    | PyVal.int _ =>
        (humanize p.1.data ++ chars ": " ++ pyStr p.2 ++ chars ".") :: acc
    | PyVal.list xs =>
        if xs.all isScalar then
          (humanize p.1.data ++ chars ": " ++ naturalList (xs.map pyStr) ++ chars ".")
            :: acc
        else acc
    | _ => acc) []

/-- The key scan of `_dict_to_natural` over all items looking for a
"case" key with renderable cases (bot.py lines 131-135). -/
def dtnCaseScan : List (String × PyVal) → Option (List Char)
  | [] => Option.none
  | (k, v) :: rest =>
      if containsSub (chars "case") (pyLower k.data) then
        match casesToText v with
        | some t => some t
        | Option.none => dtnCaseScan rest
      else dtnCaseScan rest

/-- The single-key special handling of `_dict_to_natural` (bot.py lines
105-129): a nested dict renders as an executive-order sentence or as
flattened parts, a list under a case-like key renders as case bullets;
`none` falls through to the generic loops. -/
def dtnSingleKey (d : List (String × PyVal)) : Option (List Char) :=
  if d.length = 1 then
    match d with
    | (k, PyVal.dict vd) :: _ =>
        let kl := pyLower k.data
        if containsSub (chars "executive") kl || containsSub (chars "order") kl
            || List.isPrefixOf (chars "eo_") kl then
          some (executiveOrderToText k vd)
        else
          let parts := dtnScalarBits vd
          if parts.isEmpty then Option.none
          else some (humanize k.data ++ chars " — " ++ joinSep (chars " ") parts)
    | (k, PyVal.list xs) :: _ =>
        if containsSub (chars "case") (pyLower k.data) then
          casesToText (PyVal.list xs)
        else Option.none
    | _ => Option.none
  else Option.none

/-- Embedding of `_dict_to_natural` (bot.py lines 104-148). -/
def dictToNatural (d : List (String × PyVal)) : List Char :=
  match dtnSingleKey d with
  | some t => t
  | Option.none =>
      match dtnCaseScan d with
      | some t => t
      | Option.none =>
          let flat := dtnScalarBits d
          if flat.isEmpty then pyStr (PyVal.dict d)
          else joinSep (chars " ") flat

/-- Error raised by `.get` on a non-dict theme item or summary value. -/
def themeGetError : PyErr :=
  PyErr.mk (chars "AttributeError") (chars "object has no attribute get")

/-- Embedding of `_themes_to_text` (bot.py lines 151-161): each theme
item must be a mapping; theme and description default when falsy, the
citation is appended when truthy. -/
def themesToText (themes : List PyVal) : Except PyErr (List Char) :=
  (themes.mapM (fun t =>
    match t with
    | PyVal.dict r =>
        let theme := pyOrChain [pyGet r "theme", PyVal.str (chars "Theme")]
        let desc := pyOrChain [pyGet r "description", PyVal.str []]
        let cite := pyGet r "citation"
        let line := pyStrip (chars "• " ++ pyStr theme ++ chars " — " ++ pyStr desc)
        Except.ok (if pyTruthy cite then
            line ++ chars " (cite: " ++ pyStr cite ++ [')']
          else line)
    | _ => Except.error themeGetError)).bind (fun lines =>
    Except.ok (chars "Key enforcement themes:\n" ++ joinSep (chars "\n") lines))

/-- The out-value dispatch of `_to_text` after the data probing (bot.py
lines 247-259), shared with the top level.  The parameter `sub` models
`_maybe_parse_structured_string` composed with the recursive
normalization: `some` is the rendering of a string that parsed as a
structured value, `none` means the string did not parse. -/
def toTextOut (sub : List Char → Option (List Char)) (result out : PyVal) :
    Except PyErr (List Char) :=
  match out with
  | PyVal.str s =>
      Except.ok (match sub s with
        | some t => t
        | Option.none => pyStrip s)
  | PyVal.dict okvs =>
      (match (dictLookup okvs "summary").getD (PyVal.dict []) with
       | PyVal.dict sk =>
           (match dictLookup sk "themes" with
            | some (PyVal.list ts) =>
                if !ts.isEmpty then themesToText ts
                else Except.ok (dictToNatural okvs)
            | _ => Except.ok (dictToNatural okvs))
       | _ => Except.error themeGetError)
  | _ =>
      match result with
      | PyVal.dict rk => Except.ok (dictToNatural rk)
      | _ => Except.ok (pyStr result)

/-- Embedding of `_to_text` (bot.py lines 222-259). -/
def toText (sub : List Char → Option (List Char)) (result : PyVal) :
    Except PyErr (List Char) :=
  match result with
  | PyVal.str s =>
      Except.ok (match sub s with
        | some t => t
        | Option.none => pyStrip s)
  | _ =>
      match attrGet result "text" with
      | some t =>
          if pyTruthy t then Except.ok (pyStrip (pyStr t))
          else
            let data := (attrGet result "data").getD PyVal.none
            let out := match data with
              | PyVal.dict kvs =>
                  pyOrChain [pyGet kvs "output", pyGet kvs "text",
                    pyGet kvs "message", pyGet kvs "content"]
              | _ =>
                  match result with
                  | PyVal.dict rk =>
                      pyOrChain [pyGet rk "response", pyGet rk "output",
                        pyGet rk "text", pyGet rk "message", PyVal.dict rk]
                  | _ => PyVal.none
            toTextOut sub result out
      | Option.none =>
          let data := (attrGet result "data").getD PyVal.none
          let out := match data with
            | PyVal.dict kvs =>
                pyOrChain [pyGet kvs "output", pyGet kvs "text",
                  pyGet kvs "message", pyGet kvs "content"]
            | _ =>
                match result with
                | PyVal.dict rk =>
                    pyOrChain [pyGet rk "response", pyGet rk "output",
                      pyGet rk "text", pyGet rk "message", PyVal.dict rk]
                | _ => PyVal.none
          toTextOut sub result out

/-! ## Helper lemmas -/

/-- The key loop of the dict branch only ever selects list values. -/
theorem rfsKeyScan_list (kvs : List (String × PyVal)) :
    ∀ ks v, rfsKeyScan kvs ks = some v → ∃ xs, v = PyVal.list xs := by
  intro ks
  induction ks with
  | nil => intro v h; simp [rfsKeyScan] at h
  | cons k rest ih =>
      intro v h
      unfold rfsKeyScan at h
      split at h
      · exact ⟨_, (Option.some.inj h).symm⟩
      · exact ih v h

/-- The details fallback always returns a list. -/
theorem resultsFromSearchDetails_list (res : PyVal) :
    ∃ xs, resultsFromSearchDetails res = Except.ok (PyVal.list xs) := by
  unfold resultsFromSearchDetails
  split
  · exact ⟨_, rfl⟩
  · exact ⟨_, rfl⟩
  · exact ⟨_, rfl⟩

/-- The data branch always returns a list. -/
theorem resultsFromSearchData_list (res : PyVal) :
    ∃ xs, resultsFromSearchData res = Except.ok (PyVal.list xs) := by
  unfold resultsFromSearchData
  split
  · exact resultsFromSearchDetails_list res
  · split
    · next v _ h => obtain ⟨xs, rfl⟩ := rfsKeyScan_list _ _ _ h; exact ⟨_, rfl⟩
    · exact ⟨_, rfl⟩
  · exact ⟨_, rfl⟩
  · split
    · exact ⟨_, rfl⟩
    · exact resultsFromSearchDetails_list res

/-- The continuation of the normalizer always returns a list. -/
theorem resultsFromSearchRest_list (res : PyVal) :
    ∃ xs, resultsFromSearchRest res = Except.ok (PyVal.list xs) := by
  unfold resultsFromSearchRest
  split
  · exact ⟨_, rfl⟩
  · split
    · next v _ h => obtain ⟨xs, rfl⟩ := rfsKeyScan_list _ _ _ h; exact ⟨_, rfl⟩
    · split
      · split
        · exact ⟨_, rfl⟩
        · exact ⟨_, rfl⟩
      · exact ⟨_, rfl⟩
  · exact resultsFromSearchData_list res

/-! ## Claim C8: supported shapes yield lists without raising -/

/-- The benign-details condition carving out the spec taxonomy: an
opaque object of shape (4) of spec section 4.1 carries a data attribute;
a details attribute, when present at all, is the separate shape (5) and
is admitted here only as a falsy value or a list. -/
def detailsBenign (attrs : List (String × PyVal)) : Prop :=
  match dictLookup attrs "details" with
  | Option.none => True
  | some d => pyTruthy d = false ∨ ∃ xs, d = PyVal.list xs

/-- The supported search-response shapes enumerated by the claim: null,
a plain sequence, a mapping, or an opaque object with a nested data
attribute (and no interfering non-list details attribute). -/
def SupportedShape (v : PyVal) : Prop :=
  v = PyVal.none ∨ (∃ xs, v = PyVal.list xs) ∨ (∃ kvs, v = PyVal.dict kvs)
    ∨ (∃ attrs, v = PyVal.obj attrs ∧ (dictLookup attrs "data").isSome = true
        ∧ detailsBenign attrs)

/-- Claim C8: for every supported search-response shape — null, a plain
sequence, a mapping (with or without the "details"/"output"/"results"
keys), or an opaque object with a nested data attribute —
`_results_from_search` returns an ordered sequence (a Python list) and
never raises. -/
theorem C8_shapes_total (v : PyVal) (h : SupportedShape v) :
    ∃ xs, resultsFromSearch v = Except.ok (PyVal.list xs) := by
  rcases h with rfl | ⟨xs, rfl⟩ | ⟨kvs, rfl⟩ | ⟨attrs, rfl, hdata, hben⟩
  · exact ⟨[], rfl⟩
  · exact resultsFromSearchRest_list (PyVal.list xs)
  · exact resultsFromSearchRest_list (PyVal.dict kvs)
  · show ∃ xs, (match attrGet (PyVal.obj attrs) "details" with
      | some d =>
          if pyTruthy d then
            if pyHasLen d then Except.ok d else Except.error lenTypeError
          else resultsFromSearchRest (PyVal.obj attrs)
      | Option.none => resultsFromSearchRest (PyVal.obj attrs)) =
        Except.ok (PyVal.list xs)
    unfold detailsBenign at hben
    show ∃ xs, (match dictLookup attrs "details" with
      | some d =>
          if pyTruthy d then
            if pyHasLen d then Except.ok d else Except.error lenTypeError
          else resultsFromSearchRest (PyVal.obj attrs)
      | Option.none => resultsFromSearchRest (PyVal.obj attrs)) =
        Except.ok (PyVal.list xs)
    cases hd : dictLookup attrs "details" with
    | none => exact resultsFromSearchRest_list (PyVal.obj attrs)
    | some d =>
        rw [hd] at hben
        rcases hben with hfalse | ⟨xs, rfl⟩
        · simp only [hfalse]
          exact resultsFromSearchRest_list (PyVal.obj attrs)
        · by_cases ht : pyTruthy (PyVal.list xs) = true
          · simp only [ht, if_true]
            exact ⟨xs, rfl⟩
          · simp only [Bool.not_eq_true] at ht
            simp only [ht]
            exact resultsFromSearchRest_list (PyVal.obj attrs)

/-- Witness for C8 at a concrete mapping response. -/
theorem C8_shapes_total_witness :
    ∃ xs, resultsFromSearch (PyVal.dict [("output", PyVal.list [PyVal.str (chars "x")])]) =
      Except.ok (PyVal.list xs) :=
  C8_shapes_total _ (Or.inr (Or.inr (Or.inl ⟨_, rfl⟩)))

/-! ## Claim C7: mapping key selection -/

/-- Spec-side restatement of the amended claim for mappings: scan the
keys "details", "output", "results" and also "data", in order, for the
first value that is a Python list (an empty list qualifies); otherwise a
present truthy "data" value is wrapped as one synthetic entry; otherwise
the string form of the whole mapping is wrapped. -/
def rfsDictSpec (kvs : List (String × PyVal)) : PyVal :=
  match ["details", "output", "results", "data"].findSome? (fun k =>
      match dictLookup kvs k with
      | some (PyVal.list xs) => some (PyVal.list xs)
      | _ => Option.none) with
  | some v => v
  | Option.none =>
      match dictLookup kvs "data" with
      | some dv =>
          if pyTruthy dv then rfsWrap dv else rfsWrapStr (PyVal.dict kvs)
      | Option.none => rfsWrapStr (PyVal.dict kvs)

/-- The key loop agrees with an ordered findSome scan. -/
theorem rfsKeyScan_eq_findSome (kvs : List (String × PyVal)) :
    ∀ ks, rfsKeyScan kvs ks = ks.findSome? (fun k =>
      match dictLookup kvs k with
      | some (PyVal.list xs) => some (PyVal.list xs)
      | _ => Option.none) := by
  intro ks
  induction ks with
  | nil => simp [rfsKeyScan]
  | cons k rest ih =>
      unfold rfsKeyScan
      rw [List.findSome?_cons]
      cases hd : dictLookup kvs k with
      | none => exact ih
      | some v =>
          cases v with
          | list xs => rfl
          | none => exact ih
          | str s => exact ih
          | int n => exact ih
          | dict d => exact ih
          | obj a => exact ih

/-- Claim C7, amended: for every mapping response, the normalizer scans
the keys "details", "output", "results" and additionally "data" in
order and returns the first value that is a list (empty lists included,
with no non-emptiness requirement); when none matches, a present truthy
"data" value is returned as a single synthetic entry, and otherwise the
string form of the mapping is wrapped. -/
theorem C7_normalizer_amended (kvs : List (String × PyVal)) :
    resultsFromSearch (PyVal.dict kvs) = Except.ok (rfsDictSpec kvs) := by
  have h1 : resultsFromSearch (PyVal.dict kvs) =
      (match rfsKeyScan kvs ["details", "output", "results", "data"] with
       | some v => Except.ok v
       | Option.none =>
           match dictLookup kvs "data" with
           | some dv =>
               if pyTruthy dv then Except.ok (rfsWrap dv)
               else Except.ok (rfsWrapStr (PyVal.dict kvs))
           | Option.none => Except.ok (rfsWrapStr (PyVal.dict kvs))) := rfl
  rw [h1]
  unfold rfsDictSpec
  rw [← rfsKeyScan_eq_findSome]
  cases rfsKeyScan kvs ["details", "output", "results", "data"] with
  | some v => rfl
  | none =>
      cases dictLookup kvs "data" with
      | some dv => cases hdv : pyTruthy dv <;> simp [hdv]
      | none => rfl

/-- Counterexample for C7 as stated: the mappings `{"data": ["x"]}` and
`{}` agree on the three claimed keys (all three absent in both), yet the
normalizer returns the value of the key "data" for the first and a
synthetic wrap for the second — so the selection consults a key other
than "details"/"output"/"results", contradicting the claim. -/
theorem C7_normalizer_counterexample :
    resultsFromSearch (PyVal.dict [("data", PyVal.list [PyVal.str (chars "x")])]) =
      Except.ok (PyVal.list [PyVal.str (chars "x")])
    ∧ dictLookup [("data", PyVal.list [PyVal.str (chars "x")])] "details" = Option.none
    ∧ dictLookup [("data", PyVal.list [PyVal.str (chars "x")])] "output" = Option.none
    ∧ dictLookup [("data", PyVal.list [PyVal.str (chars "x")])] "results" = Option.none
    ∧ dictLookup ([] : List (String × PyVal)) "details" = Option.none
    ∧ dictLookup ([] : List (String × PyVal)) "output" = Option.none
    ∧ dictLookup ([] : List (String × PyVal)) "results" = Option.none
    ∧ resultsFromSearch (PyVal.dict []) = Except.ok (rfsWrapStr (PyVal.dict []))
    ∧ (Except.ok (PyVal.list [PyVal.str (chars "x")]) : Except PyErr PyVal) ≠
        Except.ok (rfsWrapStr (PyVal.dict [])) := by
  refine ⟨rfl, rfl, rfl, rfl, rfl, rfl, rfl, rfl, ?_⟩
  intro h
  simp [rfsWrapStr, rfsWrap] at h

/-! ## Claim C10: history rendering of non-user roles -/

/-- Claim C10: `build_history_text` labels every turn whose role is not
"user" — including the "system" turns recorded for ingestion markers —
with the "Assistant: " prefix; the renderer knows only the two labels
"User" and "Assistant", so no "System" label is ever produced, as the
concrete session containing INGESTED_URL / INGESTED_PATH system turns
shows end to end. -/
theorem C10_history_roles :
    (∀ r : List Char, historyRole r = chars "User" ∨ historyRole r = chars "Assistant")
    ∧ (∀ r : List Char, r ≠ chars "user" → historyRole r = chars "Assistant")
    ∧ (∀ t : Turn, t.role ≠ chars "user" →
        historyChunk t = chars "Assistant: " ++ t.content)
    ∧ buildHistoryText
        [Turn.mk (chars "user") (chars "hi"),
         Turn.mk (chars "system") (chars "INGESTED_URL http://x"),
         Turn.mk (chars "system") (chars "INGESTED_PATH data/web/x.html"),
         Turn.mk (chars "assistant") (chars "ok")] =
      chars "User: hi\nAssistant: INGESTED_URL http://x\nAssistant: INGESTED_PATH data/web/x.html\nAssistant: ok" := by
  refine ⟨?_, ?_, ?_, ?_⟩
  · intro r
    unfold historyRole
    by_cases h : r = chars "user"
    · exact Or.inl (if_pos h)
    · exact Or.inr (if_neg h)
  · intro r h
    exact if_neg h
  · intro t h
    unfold historyChunk historyRole
    rw [if_neg h]
    rfl
  · rfl

/-- Witness for C10 at the "system" role. -/
theorem C10_history_roles_witness :
    historyRole (chars "system") = chars "Assistant" :=
  C10_history_roles.2.1 (chars "system") (by decide)

/-! ## Claim C6: backfill replaces only with strictly longer context -/

/-- The re-query stage never shortens the context. -/
theorem backfillReQuery_le (env : PipelineEnv) (altQ ctx : List Char) :
    ctx.length ≤ (backfillReQuery env altQ ctx).1.length := by
  unfold backfillReQuery
  split
  · split
    · next hlt => exact Nat.le_of_lt hlt
    · exact Nat.le_refl _
  · exact Nat.le_refl _

/-- When the re-query stage changes the context, it strictly grows. -/
theorem backfillReQuery_ne (env : PipelineEnv) (altQ ctx : List Char)
    (h : (backfillReQuery env altQ ctx).1 ≠ ctx) :
    ctx.length < (backfillReQuery env altQ ctx).1.length := by
  revert h
  unfold backfillReQuery
  split
  · split
    · next hlt => intro _; exact hlt
    · intro h; exact absurd rfl h
  · intro h; exact absurd rfl h

/-- The web stage never shortens the context. -/
theorem backfillWeb_le (env : PipelineEnv) (q : List Char)
    (s : List Char × List (List Char)) :
    s.1.length ≤ (backfillWeb env q s).1.length := by
  unfold backfillWeb
  split
  · split
    · split
      · exact Nat.le_refl _
      · split
        · split
          · next hlt => exact Nat.le_of_lt hlt
          · exact Nat.le_refl _
        · exact Nat.le_refl _
    · exact Nat.le_refl _
  · exact Nat.le_refl _

/-- When the web stage changes the context, it strictly grows. -/
theorem backfillWeb_ne (env : PipelineEnv) (q : List Char)
    (s : List Char × List (List Char))
    (h : (backfillWeb env q s).1 ≠ s.1) :
    s.1.length < (backfillWeb env q s).1.length := by
  revert h
  unfold backfillWeb
  split
  · split
    · split
      · intro h; exact absurd rfl h
      · split
        · split
          · next hlt => intro _; exact hlt
          · intro h; exact absurd rfl h
        · intro h; exact absurd rfl h
    · intro h; exact absurd rfl h
  · intro h; exact absurd rfl h

/-- Composition of the two backfill stages strictly grows the context
whenever it changes it. -/
theorem backfillCompose_lt (env : PipelineEnv) (q altQ ctx : List Char)
    (h : (backfillWeb env q (backfillReQuery env altQ ctx)).1 ≠ ctx) :
    ctx.length < (backfillWeb env q (backfillReQuery env altQ ctx)).1.length := by
  by_cases hw : (backfillWeb env q (backfillReQuery env altQ ctx)).1 =
      (backfillReQuery env altQ ctx).1
  · rw [hw] at h ⊢
    exact backfillReQuery_ne env altQ ctx h
  · exact Nat.lt_of_le_of_lt (backfillReQuery_le env altQ ctx)
      (backfillWeb_ne env q _ hw)

/-- A neutral environment: empty index results, inert agent, no web
backfill, no session history. -/
def envBase : PipelineEnv :=
  { bootstrapResult := Except.ok ()
    agentInitResult := Except.ok ()
    search := fun _ _ => Except.ok PyVal.none
    run := fun _ => Except.ok PyVal.none
    runKw := fun _ => Except.ok PyVal.none
    useWebBackfill := false
    seedUrl := Option.none
    scrapeOutcome := Except.ok ()
    searchAfterScrape := fun _ _ => Except.ok PyVal.none
    allowGeneralAnswer := true
    extraIngested := ([], [])
    jsonParse := fun _ => Option.none
    sessionTurns := [] }

/-- Environment whose index search yields one 700-character passage. -/
def envC6 : PipelineEnv :=
  { envBase with
    search := fun _ _ => Except.ok (PyVal.list
      [PyVal.dict [("data", PyVal.str (List.replicate 700 'b')),
        ("metadata", PyVal.dict [])]]) }

/-- Claim C6: each backfill stage replaces the context only when the
candidate is strictly longer, so the returned context is never shorter
than the input; concretely, a 500-character context below the minimum is
replaced by a 700-character candidate, which is retained. -/
theorem C6_backfill_monotone :
    (∀ (env : PipelineEnv) (q h ctx : List Char),
        ctx.length ≤ (backfillIfNeeded env q h ctx).1.length)
    ∧ (∀ (env : PipelineEnv) (q h ctx : List Char),
        (backfillIfNeeded env q h ctx).1 ≠ ctx →
          ctx.length < (backfillIfNeeded env q h ctx).1.length)
    ∧ (backfillIfNeeded envC6 (chars "q") [] (List.replicate 500 'a')).1 =
        List.replicate 700 'b'
    ∧ (List.replicate 500 'a' : List Char).length = 500
    ∧ (List.replicate 700 'b' : List Char).length = 700 := by
  refine ⟨?_, ?_, ?_, by simp, by simp⟩
  · intro env q h ctx
    unfold backfillIfNeeded
    split
    · exact Nat.le_refl _
    · exact Nat.le_trans (backfillReQuery_le env _ ctx) (backfillWeb_le env q _)
  · intro env q h ctx
    unfold backfillIfNeeded
    split
    · intro h2; exact absurd rfl h2
    · intro h2; exact backfillCompose_lt env q _ ctx h2
  · rfl

/-- Witness for C6: the concrete 500-to-700 replacement strictly grows
the context. -/
theorem C6_backfill_witness :
    (List.replicate 500 'a' : List Char).length <
      (backfillIfNeeded envC6 (chars "q") [] (List.replicate 500 'a')).1.length :=
  C6_backfill_monotone.2.1 envC6 (chars "q") [] (List.replicate 500 'a') (by decide)

/-! ## Claims C3 and C4: agent invoker retry and calling conventions -/

/-- Claim C3, amended: `_agent_run_with_retry` retries every exception
raised by the attempt — there is no transient-lock signature gate — up
to the fixed retry count of 3, sleeping `base_delay * (attempt + 1)`
between attempts (the linearly increasing backoff); an exception whose
message contains "query" or "TypeError" additionally triggers one
simplified bare-string call inside the same attempt; after the last
attempt the last error is propagated.  Stated here for an agent that
fails every call with a message free of those two markers: all three
attempts call the agent and the error is finally re-raised. -/
theorem C3_retry_amended (run : PyVal → Except PyErr PyVal) (q ctx : List Char)
    (sid : Option (List Char)) (er : PyErr)
    (hrun : ∀ a, run a = Except.error er)
    (hq : containsSub (chars "query") er.msg = false)
    (ht : containsSub (chars "TypeError") er.msg = false) :
    agentRunWithRetry run q ctx sid 3 =
      (Except.error er,
        [AgentEvent.callEv (mainArgs q ctx sid), AgentEvent.sleepEv 1,
         AgentEvent.callEv (mainArgs q ctx sid), AgentEvent.sleepEv 2,
         AgentEvent.callEv (mainArgs q ctx sid), AgentEvent.sleepEv 3]) := by
  simp [agentRunWithRetry, retryLoop, attemptOnce, hrun, hq, ht]

/-- Error of the always-failing concrete agent. -/
def boomErr : PyErr := PyErr.mk (chars "RuntimeError") (chars "boom")

/-- A concrete agent oracle that always raises "boom". -/
def boomRun : PyVal → Except PyErr PyVal := fun _ => Except.error boomErr

/-- Counterexample for C3 as stated: the message "boom" matches no
transient-lock signature (it does not even mention a lock), yet the
invoker calls the agent three times before propagating the error —
every exception is retried, not only transient-lock ones. -/
theorem C3_retry_counterexample :
    ((agentRunWithRetry boomRun (chars "q") (chars "c") Option.none 3).2.filter
        isCallEv).length = 3
    ∧ (agentRunWithRetry boomRun (chars "q") (chars "c") Option.none 3).1 =
        Except.error boomErr
    ∧ containsSub (chars "lock") (chars "boom") = false
    ∧ containsSub (chars "Lock") (chars "boom") = false
    ∧ containsSub (chars "WinError") (chars "boom") = false :=
  ⟨rfl, rfl, rfl, rfl, rfl⟩

/-- Witness for C3 at the concrete always-failing agent. -/
theorem C3_retry_witness :
    agentRunWithRetry boomRun (chars "q") (chars "c") Option.none 3 =
      (Except.error boomErr,
        [AgentEvent.callEv (mainArgs (chars "q") (chars "c") Option.none),
         AgentEvent.sleepEv 1,
         AgentEvent.callEv (mainArgs (chars "q") (chars "c") Option.none),
         AgentEvent.sleepEv 2,
         AgentEvent.callEv (mainArgs (chars "q") (chars "c") Option.none),
         AgentEvent.sleepEv 3]) :=
  C3_retry_amended boomRun (chars "q") (chars "c") Option.none boomErr
    (fun _ => rfl) rfl rfl

/-- Claim C4, amended: when every response carries a data payload with
no non-empty output, the invoker tries, in order, the mapping with
query+context+session, the bare string, the mapping with query only, and
finally the legacy mapping with the simplified query (the part before
the first "\n---\n") plus context — and that legacy mapping does include
the session identifier when one was supplied; the last response is
returned rather than an error. -/
theorem C4_conventions_amended (run : PyVal → Except PyErr PyVal)
    (q ctx s : List Char) (resp d : PyVal)
    (hrun : ∀ a, run a = Except.ok resp)
    (hdata : attrGet resp "data" = some d)
    (hvalid : respValid resp = false)
    (hs : s.isEmpty = false) :
    agentRunWithRetry run q ctx (some s) 3 =
      (Except.ok resp,
        [AgentEvent.callEv (mainArgs q ctx (some s)),
         AgentEvent.callEv (PyVal.str q),
         AgentEvent.callEv (PyVal.dict [("query", PyVal.str q)]),
         AgentEvent.callEv (fallbackArgs q ctx (some s))])
    ∧ eventHasKey (AgentEvent.callEv (fallbackArgs q ctx (some s)))
        "session_id" = true := by
  have hout : (match attrGet d "output" with
      | some o => pyTruthy o
      | Option.none => false) = false := by
    unfold respValid at hvalid
    rw [hdata] at hvalid
    exact hvalid
  constructor
  · simp [agentRunWithRetry, retryLoop, attemptOnce, hrun, hdata, hout, hvalid]
  · simp [eventHasKey, fallbackArgs, sidKv, hs, dictLookup]

/-- A concrete agent response with a data payload but an empty output. -/
def emptyResp : PyVal := PyVal.obj [("data", PyVal.obj [("output", PyVal.str [])])]

/-- A concrete agent oracle that always answers with the empty-output
response. -/
def emptyRun : PyVal → Except PyErr PyVal := fun _ => Except.ok emptyResp

/-- The calls performed against the empty-output agent with a session. -/
def c4Calls : List AgentEvent :=
  (agentRunWithRetry emptyRun (chars "q") (chars "ctx") (some (chars "s")) 3).2.filter
    isCallEv

/-- Counterexample for C4 as stated: with a session supplied and every
response empty, four conventions are tried, but the fourth call — the
claimed "mapping with query+context and no session" — does carry the
session_id key. -/
theorem C4_conventions_counterexample :
    c4Calls.length = 4
    ∧ eventHasKey (c4Calls.getD 3 (AgentEvent.sleepEv 0)) "session_id" = true
    ∧ eventHasKey (c4Calls.getD 1 (AgentEvent.sleepEv 0)) "session_id" = false :=
  ⟨rfl, rfl, rfl⟩

/-- Witness for C4 at the concrete empty-output agent. -/
theorem C4_conventions_witness :
    agentRunWithRetry emptyRun (chars "q") (chars "ctx") (some (chars "s")) 3 =
      (Except.ok emptyResp,
        [AgentEvent.callEv (mainArgs (chars "q") (chars "ctx") (some (chars "s"))),
         AgentEvent.callEv (PyVal.str (chars "q")),
         AgentEvent.callEv (PyVal.dict [("query", PyVal.str (chars "q"))]),
         AgentEvent.callEv (fallbackArgs (chars "q") (chars "ctx")
           (some (chars "s")))]) :=
  (C4_conventions_amended emptyRun (chars "q") (chars "ctx") (chars "s")
    emptyResp (PyVal.obj [("output", PyVal.str [])]) (fun _ => rfl) rfl rfl rfl).1

/-! ## Claim C9: key-themes rendering -/

/-- The theme item of the spec scenario. -/
def c9Theme : PyVal :=
  PyVal.dict [("theme", PyVal.str (chars "Consent")),
    ("description", PyVal.str (chars "...")),
    ("citation", PyVal.str (chars "Art. 6"))]

/-- The agent response of the spec scenario: an object whose data
payload is the mapping with output.summary.themes. -/
def scenarioC9 : PyVal :=
  PyVal.obj [("data", PyVal.dict [("output", PyVal.dict
    [("summary", PyVal.dict [("themes", PyVal.list [c9Theme])])])])]

/-- The text rendered for the scenario. -/
def c9Expected : List Char :=
  chars "Key enforcement themes:\n• Consent — ... (cite: Art. 6)"

/-- Claim C9: when a response field value is a mapping containing a
summary.themes list, the bot response normalizer renders the bulleted
key-themes section with theme, description and citation per item; the
spec scenario with theme "Consent" and citation "Art. 6" begins with the
themes heading and contains "Consent" and "(cite: Art. 6)". -/
theorem C9_themes :
    (∀ (sub : List Char → Option (List Char)) (out s : List (String × PyVal))
        (ts : List PyVal),
        dictLookup out "summary" = some (PyVal.dict s) →
        dictLookup s "themes" = some (PyVal.list ts) →
        ts ≠ [] →
        toText sub (PyVal.obj [("data", PyVal.dict [("output", PyVal.dict out)])]) =
          themesToText ts)
    ∧ (∀ sub : List Char → Option (List Char),
        toText sub scenarioC9 = Except.ok c9Expected)
    ∧ List.isPrefixOf (chars "Key enforcement themes") c9Expected = true
    ∧ containsSub (chars "Consent") c9Expected = true
    ∧ containsSub (chars "(cite: Art. 6)") c9Expected = true := by
  refine ⟨?_, ?_, by decide, by decide, by decide⟩
  · intro sub out s ts hsum hth hts
    have hne : out.isEmpty = false := by
      cases out with
      | nil => simp [dictLookup] at hsum
      | cons a l => rfl
    have hts2 : ts.isEmpty = false := by
      cases ts with
      | nil => exact absurd rfl hts
      | cons a l => rfl
    have hstep : toText sub
        (PyVal.obj [("data", PyVal.dict [("output", PyVal.dict out)])]) =
        toTextOut sub (PyVal.obj [("data", PyVal.dict [("output", PyVal.dict out)])])
          (pyOrChain [PyVal.dict out, PyVal.none, PyVal.none, PyVal.none]) := rfl
    rw [hstep]
    have htr : pyTruthy (PyVal.dict out) = true := by simp [pyTruthy, hne]
    unfold pyOrChain
    rw [htr]
    simp only [if_true]
    unfold toTextOut
    simp [hsum, hth, hts2]
  · intro sub
    rfl

/-- Witness for C9: the general theorem applied at the spec scenario
values renders exactly the themes section. -/
theorem C9_themes_witness :
    toText (fun _ => Option.none)
      (PyVal.obj [("data", PyVal.dict [("output", PyVal.dict
        [("summary", PyVal.dict [("themes", PyVal.list [c9Theme])])])])]) =
      themesToText [c9Theme] :=
  C9_themes.1 (fun _ => Option.none)
    [("summary", PyVal.dict [("themes", PyVal.list [c9Theme])])]
    [("themes", PyVal.list [c9Theme])] [c9Theme] rfl rfl (List.cons_ne_nil _ _)

/-! ## Claim C1: context caps -/

/-- The built context never exceeds the cap. -/
theorem capContext_le (c : List Char) : (capContext c).length ≤ MAX_CONTEXT := by
  unfold capContext
  split
  · rw [List.length_take]
    exact Nat.min_le_left _ _
  · next h => exact Nat.le_of_not_lt h

/-- Lengths of prefixes taken to a bound stay within the bound. -/
theorem take_length_le (n : Nat) (l : List Char) : (l.take n).length ≤ n := by
  rw [List.length_take]
  exact Nat.min_le_left _ _

/-- Claim C1, amended: the context built by `_build_context` never
exceeds the 2500-character cap and is hard-cut to exactly the cap when
the joined texts exceed it, and the inline context block assembled in
`answer` is likewise capped at 2500 characters; the claim fails only for
the merged retrieved context of `answer` (see the counterexample). -/
theorem C1_cap_amended :
    (∀ (results : PyVal) (ctx : List Char) (srcs : List (List Char)),
        buildContext results = Except.ok (ctx, srcs) → ctx.length ≤ MAX_CONTEXT)
    ∧ (∀ c : List Char, MAX_CONTEXT < c.length →
        (capContext c).length = MAX_CONTEXT)
    ∧ (∀ (env : PipelineEnv) (q : List Char) (sid : Option (List Char)),
        (answerInlineCtx env q sid).length ≤ MAX_CONTEXT) := by
  refine ⟨?_, ?_, ?_⟩
  · intro results ctx srcs h
    unfold buildContext at h
    cases hi : pyIter results with
    | error e => rw [hi] at h; simp [Except.bind] at h
    | ok items =>
        rw [hi] at h
        simp only [Except.bind] at h
        cases hb : bcItems items with
        | error e => rw [hb] at h; simp at h
        | ok p =>
            rw [hb] at h
            simp only [Except.ok.injEq, Prod.mk.injEq] at h
            rw [← h.1]
            exact capContext_le _
  · intro c h
    unfold capContext
    rw [if_pos h, List.length_take]
    exact Nat.min_eq_left (Nat.le_of_lt h)
  · intro env q sid
    exact take_length_le MAX_CONTEXT _

/-- Witness for C1: the amended cap facts at concrete inputs. -/
theorem C1_cap_witness :
    (capContext (List.replicate 2501 'a')).length = MAX_CONTEXT ∧
    ([] : List Char).length ≤ MAX_CONTEXT :=
  ⟨C1_cap_amended.2.1 (List.replicate 2501 'a') (by simp [MAX_CONTEXT]),
   C1_cap_amended.1 (PyVal.list []) [] [] rfl⟩

/-- Replicated lists of positive length are non-empty. -/
theorem replicate_isEmpty_false (n : Nat) (c : Char) (h : n ≠ 0) :
    (List.replicate n c).isEmpty = false := by
  cases n with
  | zero => exact absurd rfl h
  | succ m => rw [List.replicate_succ]; rfl

/-- Whitespace-dropping leaves a run of a non-whitespace character
alone. -/
theorem dropWhile_ws_replicate_a (n : Nat) :
    (List.replicate n 'a').dropWhile Char.isWhitespace = List.replicate n 'a' := by
  cases n with
  | zero => rfl
  | succ m =>
      rw [List.replicate_succ, List.dropWhile_cons]
      rw [show Char.isWhitespace 'a' = false from rfl]
      simp

/-- Stripping a run of a non-whitespace character is the identity. -/
theorem pyStrip_replicate_a (n : Nat) :
    pyStrip (List.replicate n 'a') = List.replicate n 'a' := by
  unfold pyStrip
  rw [dropWhile_ws_replicate_a, List.reverse_replicate, dropWhile_ws_replicate_a,
    List.reverse_replicate]

/-- One dict result entry with a non-empty already-stripped data text
and empty metadata yields exactly that text as its chunk and no
sources. -/
theorem bcProcessItem_data_generic (l : List Char) (hne : l.isEmpty = false)
    (hstrip : pyStrip l = l) :
    bcProcessItem (PyVal.dict [("data", PyVal.str l), ("metadata", PyVal.dict [])]) =
      Except.ok (some l, []) := by
  have htr : pyTruthy (PyVal.str l) = true := by simp [pyTruthy, hne]
  have h1 : bcTxtOf [("data", PyVal.str l), ("metadata", PyVal.dict [])] =
      PyVal.str l := by
    show pyOrChain [PyVal.str l, PyVal.none, PyVal.none, PyVal.none, PyVal.str []] =
      PyVal.str l
    unfold pyOrChain
    rw [htr]
    simp
  simp only [bcProcessItem, h1]
  rw [show pyStr (PyVal.str l) = l from rfl, hstrip, htr, hne]
  rfl

/-- Building the context from one such entry strips and caps its text. -/
theorem buildContext_single_generic (l : List Char) (hne : l.isEmpty = false)
    (hstrip : pyStrip l = l) :
    buildContext (PyVal.list
      [PyVal.dict [("data", PyVal.str l), ("metadata", PyVal.dict [])]]) =
      Except.ok (capContext l, []) := by
  unfold buildContext
  rw [show pyIter (PyVal.list
    [PyVal.dict [("data", PyVal.str l), ("metadata", PyVal.dict [])]]) =
    Except.ok [PyVal.dict [("data", PyVal.str l), ("metadata", PyVal.dict [])]]
    from rfl]
  simp only [Except.bind]
  unfold bcItems
  rw [bcProcessItem_data_generic l hne hstrip]
  simp only [bcItems, Except.bind, contextOfChunks, joinSep, hstrip]
  rfl

/-- The non-trigger merge of `answer` (pipeline.py line 645): with a
successful index search and a non-empty recently-ingested excerpt, the
retrieved context is the excerpt, the separator and the index context
concatenated. -/
theorem answerRetrieval_merge (env : PipelineEnv) (q ctx : List Char)
    (srcs : List (List Char))
    (hw : wantsIngestedDoc q = false)
    (hextra : env.extraIngested.1.isEmpty = false)
    (hs : searchBuild env.search q TOP_K = Except.ok (ctx, srcs)) :
    answerRetrieval env q =
      (env.extraIngested.1 ++ ctxSep ++ ctx, env.extraIngested.2 ++ srcs) := by
  unfold answerRetrieval
  rw [hw]
  simp only [Bool.false_and, if_false, hs, hextra]
  simp

/-- Backfill is skipped entirely at or above the minimum length. -/
theorem backfill_skip (env : PipelineEnv) (q h ctx : List Char)
    (hlen : MIN_CTX_CHARS ≤ ctx.length) :
    backfillIfNeeded env q h ctx = (ctx, []) := by
  unfold backfillIfNeeded
  rw [if_pos hlen]

/-- The index result of the C1 counterexample: one 3000-character
passage, built into a context of exactly the 2500-character cap. -/
def itemC1 : PyVal :=
  PyVal.dict [("data", PyVal.str (List.replicate 3000 'a')),
    ("metadata", PyVal.dict [])]

/-- Environment of the C1 counterexample: a recently-ingested excerpt at
its 1400-character cap and a search producing a cap-length index
context. -/
def envC1 : PipelineEnv :=
  { envBase with
    search := fun _ _ => Except.ok (PyVal.list [itemC1])
    extraIngested := (capIngestedText (List.replicate 1500 'b'), []) }

/-- Unfolding of the context stage of `answer`: retrieval then
backfill. -/
theorem answerContext_fst (env : PipelineEnv) (q : List Char)
    (sid : Option (List Char)) :
    (answerContext env q sid).1 =
      (backfillIfNeeded env q (answerHistoryText env sid)
        (answerRetrieval env q).1).1 := rfl

/-- The retrieved context of the C1 environment: the capped excerpt, the
separator, and the capped index context concatenated. -/
theorem answerRetrievalC1_eq :
    (answerRetrieval envC1 (chars "what is gdpr")).1 =
      envC1.extraIngested.1 ++ ctxSep ++ capContext (List.replicate 3000 'a') := by
  have hextra1 : envC1.extraIngested.1 = List.replicate 1400 'b' := by
    show capIngestedText (List.replicate 1500 'b') = List.replicate 1400 'b'
    unfold capIngestedText
    rw [List.length_replicate, if_pos (by norm_num [EXTRA_INGESTED_MAX_CHARS]),
      List.take_replicate]
    norm_num [EXTRA_INGESTED_MAX_CHARS]
  have hw : wantsIngestedDoc (chars "what is gdpr") = false := by decide
  have hextra : envC1.extraIngested.1.isEmpty = false := by
    rw [hextra1]
    exact replicate_isEmpty_false 1400 'b' (by norm_num)
  have hsearch : searchBuild envC1.search (chars "what is gdpr") TOP_K =
      Except.ok (capContext (List.replicate 3000 'a'), []) := by
    unfold searchBuild
    show (Except.ok (PyVal.list [itemC1])).bind _ = _
    simp only [Except.bind]
    rw [show resultsFromSearch (PyVal.list [itemC1]) =
      Except.ok (PyVal.list [itemC1]) from rfl]
    simp only [Except.bind]
    exact buildContext_single_generic _
      (replicate_isEmpty_false 3000 'a' (by norm_num)) (pyStrip_replicate_a 3000)
  rw [answerRetrieval_merge envC1 (chars "what is gdpr") _ _ hw hextra hsearch]

/-- Counterexample for C1 as stated: the retrieved context assembled by
`answer` after merging the recently-ingested excerpt (itself within its
1400-character cap) with the capped 2500-character index context via the
7-character separator reaches 3907 characters, exceeding the configured
2500-character hard cap — so not every assembled context respects the
cap. -/
theorem C1_cap_counterexample :
    (answerContext envC1 (chars "what is gdpr") Option.none).1.length = 3907
    ∧ envC1.extraIngested.1.length = 1400
    ∧ MAX_CONTEXT < 3907 := by
  have hextra1 : envC1.extraIngested.1 = List.replicate 1400 'b' := by
    show capIngestedText (List.replicate 1500 'b') = List.replicate 1400 'b'
    unfold capIngestedText
    rw [List.length_replicate, if_pos (by norm_num [EXTRA_INGESTED_MAX_CHARS]),
      List.take_replicate]
    norm_num [EXTRA_INGESTED_MAX_CHARS]
  have hctxlen : (capContext (List.replicate 3000 'a')).length = 2500 := by
    unfold capContext
    rw [List.length_replicate, if_pos (by norm_num [MAX_CONTEXT]), List.length_take,
      List.length_replicate]
    norm_num [MAX_CONTEXT]
  have hmergedlen : (envC1.extraIngested.1 ++ ctxSep ++
      capContext (List.replicate 3000 'a')).length = 3907 := by
    rw [List.length_append, List.length_append, hextra1, List.length_replicate,
      hctxlen]
    rfl
  refine ⟨?_, ?_, by norm_num [MAX_CONTEXT]⟩
  · rw [answerContext_fst, answerRetrievalC1_eq]
    rw [backfill_skip _ _ _ _ (by rw [hmergedlen]; norm_num [MIN_CTX_CHARS])]
    exact hmergedlen
  · rw [hextra1, List.length_replicate]

/-! ## Claim C2: sources surfaced to the user -/

/-- Deduplication only keeps elements of the input. -/
theorem dedupAux_subset :
    ∀ (l seen : List (List Char)) (s : List Char), s ∈ dedupAux l seen → s ∈ l := by
  intro l
  induction l with
  | nil => intro seen s h; simp [dedupAux] at h
  | cons x xs ih =>
      intro seen s h
      unfold dedupAux at h
      split at h
      · exact List.mem_cons_of_mem _ (ih _ _ h)
      · rcases List.mem_cons.mp h with rfl | h2
        · exact List.mem_cons_self _ _
        · exact List.mem_cons_of_mem _ (ih _ _ h2)

/-- Claim C2, amended: every source string rendered into the final
appended Sources section satisfies the cleaning filter — it starts with
"http" or mentions federalregister.gov or whitehouse.gov.  Local-path
markers are excluded by `_build_context` only for strings that match
none of its allow conditions, so a string that both matches an allow
condition and carries a local path marker can still surface (see the
counterexample). -/
theorem C2_sources_amended (sources : List (List Char)) (s : List Char)
    (h : s ∈ finalSourceList sources) :
    List.isPrefixOf (chars "http") s = true
    ∨ containsSub (chars "federalregister.gov") s = true
    ∨ containsSub (chars "whitehouse.gov") s = true := by
  unfold finalSourceList at h
  have h2 : s ∈ dedup (sources.filter cleanSrcPred) :=
    (List.take_sublist _ _).subset h
  have h3 : s ∈ sources.filter cleanSrcPred := dedupAux_subset _ _ _ h2
  have h4 := (List.mem_filter.mp h3).2
  unfold cleanSrcPred at h4
  rcases Bool.or_eq_true_iff.mp h4 with h5 | h5
  · rcases Bool.or_eq_true_iff.mp h5 with h6 | h6
    · exact Or.inl h6
    · exact Or.inr (Or.inl h6)
  · exact Or.inr (Or.inr h5)

/-- Witness for C2 at a plain http source. -/
theorem C2_sources_witness :
    List.isPrefixOf (chars "http") (chars "http://a") = true
    ∨ containsSub (chars "federalregister.gov") (chars "http://a") = true
    ∨ containsSub (chars "whitehouse.gov") (chars "http://a") = true :=
  C2_sources_amended [chars "http://a"] (chars "http://a") (by decide)

/-- A machine-local drive-letter path that also mentions a regulatory
domain. -/
def srcPathC2 : List Char := chars "C:\\docs\\federalregister.gov\\notice.html"

/-- The index result of the C2 counterexample: a 700-character passage
whose metadata path is the local drive-letter path. -/
def itemC2 : PyVal := PyVal.dict
  [("data", PyVal.str (List.replicate 700 'a')),
   ("metadata", PyVal.dict [("path", PyVal.str srcPathC2)])]

/-- Environment of the C2 counterexample. -/
def envC2 : PipelineEnv :=
  { envBase with
    search := fun _ _ => Except.ok (PyVal.list [itemC2])
    run := fun _ => Except.ok (PyVal.obj [("text", PyVal.str (chars "An answer."))]) }

/-- The text returned by `answer` in the C2 environment. -/
def c2Out : List Char :=
  match answerModel envC2 (chars "what changed") Option.none with
  | Except.ok o => o
  | Except.error _ => []

/-- Counterexample for C2 as stated: the final Sources section of the
returned answer contains the drive-letter path (it passes both source
filters because it mentions federalregister.gov), so a source string
with a local path marker does surface to the end user. -/
theorem C2_sources_counterexample :
    (splitSourcesModel c2Out).2 = some (chars "- " ++ srcPathC2)
    ∧ containsSub (chars "C:\\") (chars "- " ++ srcPathC2) = true
    ∧ containsSub (chars "C:\\") srcPathC2 = true := by
  refine ⟨rfl, by decide, by decide⟩

/-! ## Claim C5: answer never raises, except for initialization -/

/-- Every successful result of one attempt is an output of the agent
oracle. -/
theorem attemptOnce_run_ok (run : PyVal → Except PyErr PyVal) (q ctx : List Char)
    (sid : Option (List Char)) (r : PyVal) (tr : List AgentEvent)
    (h : attemptOnce run q ctx sid = (Except.ok r, tr)) :
    ∃ a, run a = Except.ok r := by
  simp only [attemptOnce] at h
  cases h0 : run (mainArgs q ctx sid) with
  | error e => simp only [h0] at h; simp at h
  | ok result =>
      simp only [h0] at h
      cases h1 : attrGet result "data" with
      | none =>
          simp only [h1, Prod.mk.injEq, Except.ok.injEq] at h
          exact ⟨_, h0.trans (congrArg Except.ok h.1)⟩
      | some d =>
          simp only [h1] at h
          by_cases h2 : (match attrGet d "output" with
              | some o => pyTruthy o
              | Option.none => false) = true
          · rw [if_pos h2] at h
            simp only [Prod.mk.injEq, Except.ok.injEq] at h
            exact ⟨_, h0.trans (congrArg Except.ok h.1)⟩
          · rw [if_neg h2] at h
            cases h3 : run (PyVal.str q) with
            | error e => simp only [h3] at h; simp at h
            | ok r1 =>
                simp only [h3] at h
                by_cases h4 : respValid r1 = true
                · rw [if_pos h4] at h
                  simp only [Prod.mk.injEq, Except.ok.injEq] at h
                  exact ⟨_, h3.trans (congrArg Except.ok h.1)⟩
                · rw [if_neg h4] at h
                  cases h5 : run (PyVal.dict [("query", PyVal.str q)]) with
                  | error e => simp only [h5] at h; simp at h
                  | ok r2 =>
                      simp only [h5] at h
                      by_cases h6 : respValid r2 = true
                      · rw [if_pos h6] at h
                        simp only [Prod.mk.injEq, Except.ok.injEq] at h
                        exact ⟨_, h5.trans (congrArg Except.ok h.1)⟩
                      · rw [if_neg h6] at h
                        cases h7 : run (fallbackArgs q ctx sid) with
                        | error e => simp only [h7] at h; simp at h
                        | ok r3 =>
                            simp only [h7, Prod.mk.injEq, Except.ok.injEq] at h
                            exact ⟨_, h7.trans (congrArg Except.ok h.1)⟩

/-- Every successful result of the retry loop is an output of the agent
oracle. -/
theorem retryLoop_run_ok (run : PyVal → Except PyErr PyVal) (q ctx : List Char)
    (sid : Option (List Char)) :
    ∀ (rem att : Nat) (le : Option PyErr) (r : PyVal) (tr : List AgentEvent),
      retryLoop run q ctx sid att rem le = (Except.ok r, tr) →
      ∃ a, run a = Except.ok r := by
  intro rem
  induction rem with
  | zero =>
      intro att le r tr h
      unfold retryLoop at h
      cases le with
      | some e => simp at h
      | none => simp at h
  | succ m ih =>
      intro att le r tr h
      unfold retryLoop at h
      split at h
      · rename_i rr t heq
        simp only [Prod.mk.injEq, Except.ok.injEq] at h
        obtain ⟨a, ha⟩ := attemptOnce_run_ok run q ctx sid rr t heq
        exact ⟨a, by rw [ha, h.1]⟩
      · rename_i e t heq
        split at h
        · simp only [] at h
          split at h
          · rename_i rr heq2
            split at h
            · simp only [Prod.mk.injEq, Except.ok.injEq] at h
              exact ⟨_, heq2.trans (congrArg Except.ok h.1)⟩
            · cases hn : retryLoop run q ctx sid (att + 1) m (some e) with
              | mk res2 t2 =>
                  rw [hn] at h
                  simp only [Prod.mk.injEq] at h
                  exact ih (att + 1) (some e) r t2 (hn.trans (by rw [h.1]))
          · cases hn : retryLoop run q ctx sid (att + 1) m (some e) with
            | mk res2 t2 =>
                rw [hn] at h
                simp only [Prod.mk.injEq] at h
                exact ih (att + 1) (some e) r t2 (hn.trans (by rw [h.1]))
        · cases hn : retryLoop run q ctx sid (att + 1) m (some e) with
          | mk res2 t2 =>
              rw [hn] at h
              simp only [Prod.mk.injEq] at h
              exact ih (att + 1) (some e) r t2 (hn.trans (by rw [h.1]))

/-- Claim C5, amended: provided initialization succeeds (bootstrap and
agent handle creation are called outside any try and their failures
propagate — see the counterexample) and the main-path formatting of the
agent responses does not itself raise, `answer` returns normally for
every search, backfill and agent behavior: retrieval and backfill
failures are absorbed as missing context, and a hard agent-invocation
failure yields the returned diagnostic string embedding the query, the
top sources, a context preview and the error text. -/
theorem C5_answer_amended (env : PipelineEnv) (q : List Char)
    (sid : Option (List Char))
    (h1 : env.bootstrapResult = Except.ok ())
    (h2 : env.agentInitResult = Except.ok ())
    (h3 : ∀ a r, env.run a = Except.ok r →
      (formatOutput env.jsonParse r).isOk = true) :
    (answerModel env q sid).isOk = true
    ∧ (∀ (e : PyErr) (tr : List AgentEvent),
        agentRunWithRetry env.run (answerQueryForAgent env q sid)
          (answerContext env q sid).1 sid 3 = (Except.error e, tr) →
        answerModel env q sid = Except.ok (answerDiagnostic env q sid e)) := by
  have hbody : answerModel env q sid =
      (match (agentRunWithRetry env.run (answerQueryForAgent env q sid)
          (answerContext env q sid).1 sid 3).1 with
        | Except.error e => Except.ok (answerDiagnostic env q sid e)
        | Except.ok resp => answerAfterAgent env q (answerQueryForAgent env q sid)
            sid (answerContext env q sid).2 resp) := by
    unfold answerModel
    rw [h1, h2]
    rfl
  constructor
  · rw [hbody]
    cases hr1 : (agentRunWithRetry env.run (answerQueryForAgent env q sid)
        (answerContext env q sid).1 sid 3).1 with
    | error e => rfl
    | ok resp =>
        have hfull : agentRunWithRetry env.run (answerQueryForAgent env q sid)
            (answerContext env q sid).1 sid 3 =
            (Except.ok resp, (agentRunWithRetry env.run
              (answerQueryForAgent env q sid)
              (answerContext env q sid).1 sid 3).2) := by
          rw [← hr1]
        obtain ⟨a, ha⟩ := retryLoop_run_ok env.run (answerQueryForAgent env q sid)
          (answerContext env q sid).1 sid 3 0 Option.none resp _ hfull
        have hf := h3 a resp ha
        show (answerAfterAgent env q (answerQueryForAgent env q sid) sid
          (answerContext env q sid).2 resp).isOk = true
        unfold answerAfterAgent
        cases hfo : formatOutput env.jsonParse resp with
        | error e2 => rw [hfo] at hf; simp [Except.isOk, Except.toBool] at hf
        | ok out => rfl
  · intro e tr hr
    rw [hbody]
    rw [show (agentRunWithRetry env.run (answerQueryForAgent env q sid)
      (answerContext env q sid).1 sid 3).1 = Except.error e from by rw [hr]]

/-- Environment of the C5 counterexample: bootstrap raises. -/
def envC5 : PipelineEnv :=
  { envBase with
    bootstrapResult := Except.error (PyErr.mk (chars "RuntimeError")
      (chars "index bootstrap failed")) }

/-- Counterexample for C5 as stated: a failure in initialization (step
1) is not caught — `bootstrap()` is called outside any try block — so
`answer` raises to its caller instead of treating the failure as no
additional context. -/
theorem C5_answer_counterexample :
    answerModel envC5 (chars "q") Option.none =
      Except.error (PyErr.mk (chars "RuntimeError")
        (chars "index bootstrap failed")) := rfl

/-- Witness for C5 at a concrete benign environment. -/
theorem C5_answer_witness :
    (answerModel envBase (chars "q") Option.none).isOk = true :=
  (C5_answer_amended envBase (chars "q") Option.none rfl rfl
    (fun a r h => by
      injection h with h2
      rw [← h2]
      rfl)).1
